import Mathlib

/-!
Shallow embedding of the MTAP DUT simulator, test runner and analytics
(`src/mtap/dut/fault_injection.py`, `src/mtap/dut/device_model.py`,
`src/mtap/dut/server.py`, `src/mtap/dut/protocol.py`,
`src/mtap/runner/runner.py`, `src/mtap/reporting/logger.py`,
`src/mtap/traceability/coverage.py`, `src/mtap/analytics/stratification.py`).

Modelling conventions:
* Python floats are modelled as `ℚ`; all arithmetic used by the claims
  (+, *, /, min, max, comparisons) is exact.
* The single server-wide `random.Random` generator is modelled as a
  pre-determined draw stream `ℕ → ℚ` plus a cursor; `random()` pops one
  draw, `uniform lo hi` pops one draw `d` and returns `lo + (hi-lo)*d`
  (the CPython formula).  `gauss mu sigma` pops one draw `d` and returns
  `mu + sigma*d`: the exact Gaussian transform is irrelevant to every
  claim (only determinism of the draw matters).
* Wall-clock readings (`time.time()`) are explicit parameters: the
  injector's `evaluate` reads the clock twice (entry update and busy
  check), so it takes two timestamps; a server dispatch is modelled as
  happening at a single instant `t` used for all readings it performs.
* Python dicts holding config sections are modelled as structures with
  `Option` fields; `dict.update` key-level merging becomes a per-field
  `<|>`.  Maps keyed by strings are modelled as total functions into
  `Option` (or into a default value where the source auto-creates
  entries, as `FaultInjector._ctx_for` does).
-/

namespace Mtap

/-- Frozen error taxonomy, `src/mtap/dut/protocol.py`. -/
def E_UNKNOWN_CMD : String := "E_UNKNOWN_CMD"

def E_BAD_ARGS : String := "E_BAD_ARGS"

def E_TIMEOUT : String := "E_TIMEOUT"

def E_INTERNAL : String := "E_INTERNAL"

def E_OUT_OF_RANGE : String := "E_OUT_OF_RANGE"

def E_BUSY : String := "E_BUSY"

/-- Helper for Python's `str.split()`: accumulate the current token
(reversed) while scanning; whitespace runs separate tokens and produce
no empties. -/
def splitWsAux : List Char → List Char → List String
  | [], acc => if acc = [] then [] else [String.mk acc.reverse]
  | c :: cs, acc =>
    if c.isWhitespace then
      if acc = [] then splitWsAux cs [] else String.mk acc.reverse :: splitWsAux cs []
    else splitWsAux cs (c :: acc)

/-- Python `str.split()` with no separator argument. -/
def pySplit (s : String) : List String := splitWsAux s.toList []

/-- Python `str.upper()` (ASCII suffices for the protocol tokens). -/
def upperStr (s : String) : String := String.mk (s.toList.map Char.toUpper)

/-- Python `str.lower()`. -/
def lowerStr (s : String) : String := String.mk (s.toList.map Char.toLower)

/-! ### Fault profile configuration (`fault_injection.py`) -/

/-- `timeout` section of a fault profile. -/
structure TimeoutCfg where
  p : Option ℚ := none
  mode : Option String := none
  delay_s : Option (ℚ × ℚ) := none
  deriving DecidableEq

/-- `fail` section of a fault profile. -/
structure FailCfg where
  p : Option ℚ := none
  deriving DecidableEq

/-- `drift` section of a fault profile. -/
structure DriftCfg where
  temp_offset_per_cycle_c : Option ℚ := none
  vbat_offset_per_cycle_v : Option ℚ := none
  deriving DecidableEq

/-- `burn_in` section of a fault profile. -/
structure BurnInCfg where
  fail_p_multiplier_per_1k_cycles : Option ℚ := none
  drift_multiplier_per_1k_cycles : Option ℚ := none
  deriving DecidableEq

/-- `busy` section of a fault profile. -/
structure BusyCfg where
  min_interval_ms : Option ℤ := none
  p : Option ℚ := none
  deriving DecidableEq

/-- One block of sections: the value of `profile["default"]` or of
`profile["per_command"][cmd]`. -/
structure SectionCfg where
  timeout : Option TimeoutCfg := none
  fail : Option FailCfg := none
  drift : Option DriftCfg := none
  burn_in : Option BurnInCfg := none
  busy : Option BusyCfg := none
  deriving DecidableEq

/-- `intermittent_markov` block. -/
structure MarkovCfg where
  enabled : Option Bool := none
  p_good_to_bad : Option ℚ := none
  p_bad_to_good : Option ℚ := none
  fail_p_bad_state : Option ℚ := none
  timeout_p_bad_state : Option ℚ := none
  timeout_delay_s : Option (ℚ × ℚ) := none

/-- A fault profile document. -/
structure FaultProfile where
  default : Option SectionCfg := none
  per_command : String → Option SectionCfg := fun _ => none
  intermittent_markov : Option MarkovCfg := none

/-- Merged `timeout` section: `dict(base).update(per)` at key level. -/
def mergeTimeout (b p : Option TimeoutCfg) : TimeoutCfg :=
  { p := (p.bind TimeoutCfg.p) <|> (b.bind TimeoutCfg.p)
    mode := (p.bind TimeoutCfg.mode) <|> (b.bind TimeoutCfg.mode)
    delay_s := (p.bind TimeoutCfg.delay_s) <|> (b.bind TimeoutCfg.delay_s) }

/-- Merged `fail` section. -/
def mergeFail (b p : Option FailCfg) : FailCfg :=
  { p := (p.bind FailCfg.p) <|> (b.bind FailCfg.p) }

/-- Merged `drift` section. -/
def mergeDrift (b p : Option DriftCfg) : DriftCfg :=
  { temp_offset_per_cycle_c :=
      (p.bind DriftCfg.temp_offset_per_cycle_c) <|> (b.bind DriftCfg.temp_offset_per_cycle_c)
    vbat_offset_per_cycle_v :=
      (p.bind DriftCfg.vbat_offset_per_cycle_v) <|> (b.bind DriftCfg.vbat_offset_per_cycle_v) }

/-- Merged `burn_in` section. -/
def mergeBurnIn (b p : Option BurnInCfg) : BurnInCfg :=
  { fail_p_multiplier_per_1k_cycles :=
      (p.bind BurnInCfg.fail_p_multiplier_per_1k_cycles) <|>
        (b.bind BurnInCfg.fail_p_multiplier_per_1k_cycles)
    drift_multiplier_per_1k_cycles :=
      (p.bind BurnInCfg.drift_multiplier_per_1k_cycles) <|>
        (b.bind BurnInCfg.drift_multiplier_per_1k_cycles) }

/-- Merged `busy` section. -/
def mergeBusy (b p : Option BusyCfg) : BusyCfg :=
  { min_interval_ms := (p.bind BusyCfg.min_interval_ms) <|> (b.bind BusyCfg.min_interval_ms)
    p := (p.bind BusyCfg.p) <|> (b.bind BusyCfg.p) }

/-- Result of `FaultInjector._cfg_for`: every section merged. -/
structure MergedCfg where
  timeout : TimeoutCfg
  fail : FailCfg
  drift : DriftCfg
  burn_in : BurnInCfg
  busy : BusyCfg

/-- `FaultInjector._cfg_for(cmd)`: merge the `default` sections with the
per-command overrides (`d = dict(base.get(section) or {}); d.update(per.get(section) or {})`). -/
def cfg_for (prof : FaultProfile) (cmd : String) : MergedCfg :=
  let base := prof.default
  let per := prof.per_command cmd
  { timeout := mergeTimeout (base.bind SectionCfg.timeout) (per.bind SectionCfg.timeout)
    fail := mergeFail (base.bind SectionCfg.fail) (per.bind SectionCfg.fail)
    drift := mergeDrift (base.bind SectionCfg.drift) (per.bind SectionCfg.drift)
    burn_in := mergeBurnIn (base.bind SectionCfg.burn_in) (per.bind SectionCfg.burn_in)
    busy := mergeBusy (base.bind SectionCfg.busy) (per.bind SectionCfg.busy) }

/-- `FaultInjector.burn_in_effect(cycles)`: multipliers taken from the
`burn_in` section merged for the `READ_TEMP` command, whatever command is
being evaluated.  Returns `(fail_multiplier, drift_multiplier)`. -/
def burn_in_effect (prof : FaultProfile) (cycles : ℕ) : ℚ × ℚ :=
  let b := (cfg_for prof "READ_TEMP").burn_in
  let k : ℚ := (cycles : ℚ) / 1000
  let fail_mult := 1 + (b.fail_p_multiplier_per_1k_cycles.getD 0) * k
  let drift_mult := 1 + (b.drift_multiplier_per_1k_cycles.getD 0) * k
  (max 0 fail_mult, max 0 drift_mult)

/-- `FaultInjector.apply_drift(cmd, cycles, temp_offset_c, vbat_offset_v)`. -/
def apply_drift (prof : FaultProfile) (cmd : String) (cycles : ℕ)
    (temp_offset_c vbat_offset_v : ℚ) : ℚ × ℚ :=
  let cfg := (cfg_for prof cmd).drift
  let dtemp := cfg.temp_offset_per_cycle_c.getD 0
  let dv := cfg.vbat_offset_per_cycle_v.getD 0
  let mult := (burn_in_effect prof cycles).2
  (temp_offset_c + dtemp * mult, vbat_offset_v + dv * mult)

/-! ### Device model state (`device_model.py`) -/

/-- `DeviceState` dataclass. -/
structure DeviceState where
  sn : String
  fw : String
  mode : String
  temp_c : ℚ
  vbat_v : ℚ
  temp_noise_sigma : ℚ
  vbat_noise_sigma : ℚ
  temp_drift_per_cycle_c : ℚ
  vbat_drift_per_cycle_v : ℚ
  drift_offset_c : ℚ := 0
  drift_offset_v : ℚ := 0
  self_test_fail_p_base : ℚ := 1/100
  burn_in_fail_slope : ℚ := 5/100000
  cycles : ℕ := 0
  last_update_s : ℚ := 0
  deriving DecidableEq

/-- `device_defaults` config section (`DeviceModel.__init__` defaults map). -/
structure DeviceDefaults where
  fw : Option String := none
  mode : Option String := none
  temp_c : Option ℚ := none
  vbat_v : Option ℚ := none
  temp_noise_sigma : Option ℚ := none
  vbat_noise_sigma : Option ℚ := none
  temp_drift_per_cycle_c : Option ℚ := none
  vbat_drift_per_cycle_v : Option ℚ := none
  self_test_fail_p_base : Option ℚ := none
  burn_in_fail_slope : Option ℚ := none

/-- Markov chain state of a `FaultContext` (`"GOOD" | "BAD"`). -/
inductive MarkovState where
  | GOOD
  | BAD
  deriving DecidableEq

/-- `FaultContext` dataclass: per `(sn, cmd)` injector state. -/
structure FaultContext where
  markov_state : MarkovState := .GOOD
  last_cmd_ts : ℚ := 0
  deriving DecidableEq

/-- Combined mutable server-process state: the shared seeded RNG (as a
draw stream plus cursor), the active fault profile, the per-`(sn, cmd)`
fault contexts, and the per-SN device map.  `FaultInjector._ctx_for`
auto-creates missing contexts with the dataclass defaults, so the context
map is modelled as a total function. -/
structure DutState where
  stream : ℕ → ℚ
  idx : ℕ := 0
  profile : FaultProfile
  fault_profiles : String → Option FaultProfile := fun _ => none
  ctx : String × String → FaultContext := fun _ => {}
  devices : String → Option DeviceState := fun _ => none
  device_defaults : DeviceDefaults := {}

/-- `self._rng.random()`: pop one draw. -/
def rand (s : DutState) : ℚ × DutState :=
  (s.stream s.idx, { s with idx := s.idx + 1 })

/-- `self._rng.uniform(lo, hi)`: one draw, CPython formula `lo + (hi-lo)*random()`. -/
def uniform (s : DutState) (lo hi : ℚ) : ℚ × DutState :=
  let (d, s) := rand s
  (lo + (hi - lo) * d, s)

/-- `self._rng.gauss(mu, sigma)`: modelled as one seeded draw `d` giving
`mu + sigma*d` (the numeric transform is immaterial to the claims). -/
def gauss (s : DutState) (mu sigma : ℚ) : ℚ × DutState :=
  let (d, s) := rand s
  (mu + sigma * d, s)

/-! ### Fault injector decisions (`fault_injection.py`) -/

/-- `TimeoutDecision` dataclass. -/
structure TimeoutDecision where
  should : Bool
  mode : String
  delay_s : ℚ
  deriving DecidableEq

/-- `FailDecision` dataclass. -/
structure FailDecision where
  should : Bool
  error_code : String
  message : String
  deriving DecidableEq

/-- `BusyDecision` dataclass. -/
structure BusyDecision where
  should : Bool
  error_code : String
  message : String
  deriving DecidableEq

/-- `FaultInjector._markov_cfg()`: the `intermittent_markov` block or `{}`. -/
def markov_cfg (prof : FaultProfile) : MarkovCfg :=
  prof.intermittent_markov.getD {}

/-- `FaultInjector._markov_step(cmd, sn)`: when enabled, draw once and
transition `GOOD → BAD` with probability `p_good_to_bad`, `BAD → GOOD`
with probability `p_bad_to_good`; store and return the new state. -/
def markov_step (s : DutState) (cmd sn : String) : MarkovState × DutState :=
  let m := markov_cfg s.profile
  if m.enabled.getD false = false then (.GOOD, s)
  else
    let c := s.ctx (sn, cmd)
    let p_gb := m.p_good_to_bad.getD 0
    let p_bg := m.p_bad_to_good.getD 0
    let (d, s) := rand s
    let st : MarkovState :=
      match c.markov_state with
      | .GOOD => if d < p_gb then .BAD else .GOOD
      | .BAD => if d < p_bg then .GOOD else .BAD
    (st, { s with ctx := fun k => if k = (sn, cmd) then { c with markov_state := st } else s.ctx k })

/-- `FaultInjector._markov_fail_add(cmd, sn)`. -/
def markov_fail_add (s : DutState) (cmd sn : String) : ℚ × DutState :=
  let m := markov_cfg s.profile
  if m.enabled.getD false = false then (0, s)
  else
    let (st, s) := markov_step s cmd sn
    if st ≠ MarkovState.BAD then (0, s)
    else (m.fail_p_bad_state.getD 0, s)

/-- `FaultInjector._markov_timeout_add(cmd, sn)`: returns the probability
addition and an optional delay override. -/
def markov_timeout_add (s : DutState) (cmd sn : String) : (ℚ × Option ℚ) × DutState :=
  let m := markov_cfg s.profile
  if m.enabled.getD false = false then ((0, none), s)
  else
    let (st, s) := markov_step s cmd sn
    if st ≠ MarkovState.BAD then ((0, none), s)
    else
      let p := m.timeout_p_bad_state.getD 0
      let (lo, hi) := m.timeout_delay_s.getD (0, 0)
      if hi > 0 then
        let (delay, s) := uniform s lo hi
        ((p, some delay), s)
      else ((p, none), s)

/-- `FaultInjector.should_timeout(cmd, sn, cycles)`. -/
def should_timeout (s : DutState) (cmd sn : String) (cycles : ℕ) : TimeoutDecision × DutState :=
  let cfg := (cfg_for s.profile cmd).timeout
  let p := cfg.p.getD 0
  let ((p_markov, delay_override), s) := markov_timeout_add s cmd sn
  let p_eff := min 1 (p + p_markov)
  let mode := lowerStr (cfg.mode.getD "delay")
  let (lo, hi) := cfg.delay_s.getD (0, 0)
  let (delay, s) := if hi > 0 then uniform s lo hi else ((0 : ℚ), s)
  let delay := delay_override.getD delay
  let (d, s) := rand s
  ({ should := d < p_eff, mode := mode, delay_s := delay }, s)

/-- `FaultInjector.should_fail(cmd, sn, cycles)`. -/
def should_fail (s : DutState) (cmd sn : String) (cycles : ℕ) : FailDecision × DutState :=
  let cfg := (cfg_for s.profile cmd).fail
  let p := cfg.p.getD 0
  let p := p * (burn_in_effect s.profile cycles).1
  let (add, s) := markov_fail_add s cmd sn
  let p := min 1 (p + add)
  let (d, s) := rand s
  if d < p then ({ should := true, error_code := E_INTERNAL,
                   message := "Simulated intermittent/internal fault" }, s)
  else ({ should := false, error_code := "", message := "" }, s)

/-- `FaultInjector.should_busy(cmd, sn)` at wall-clock instant `now`. -/
def should_busy (s : DutState) (cmd sn : String) (now : ℚ) : BusyDecision × DutState :=
  let cfg := (cfg_for s.profile cmd).busy
  let min_interval_ms := cfg.min_interval_ms.getD 0
  let p := cfg.p.getD 0
  let c := s.ctx (sn, cmd)
  if 0 < min_interval_ms ∧ (now - c.last_cmd_ts) * 1000 < (min_interval_ms : ℚ) then
    ({ should := true, error_code := E_BUSY,
       message := "Rate-limited: min_interval_ms=" ++ toString min_interval_ms }, s)
  else if 0 < p then
    let (d, s) := rand s
    if d < p then
      ({ should := true, error_code := E_BUSY,
         message := "Simulated resource contention (BUSY)" }, s)
    else ({ should := false, error_code := "", message := "" }, s)
  else ({ should := false, error_code := "", message := "" }, s)

/-- Result of `FaultInjector.evaluate`. -/
inductive Action where
  | RESPOND (error_code message : String)
  | DELAY (delay_s : ℚ)
  | DROP (delay_s : ℚ)
  | PASS
  deriving DecidableEq

/-- The entry side effect of `FaultInjector.evaluate`: stamp
`ctx.last_cmd_ts = time.time()` before any gate is checked. -/
def evaluate_entry (s : DutState) (cmd sn : String) (t_entry : ℚ) : DutState :=
  let c := s.ctx (sn, cmd)
  { s with ctx := fun k => if k = (sn, cmd) then { c with last_cmd_ts := t_entry } else s.ctx k }

/-- `FaultInjector.evaluate(cmd, sn, cycles)`.  The source reads the
clock twice: `t_entry` for the `last_cmd_ts` stamp on entry and `t_busy`
inside `should_busy`; in a real run `t_entry ≤ t_busy` with a tiny gap. -/
def evaluate (s : DutState) (cmd sn : String) (cycles : ℕ) (t_entry t_busy : ℚ) :
    Action × DutState :=
  let s := evaluate_entry s cmd sn t_entry
  let (busy, s) := should_busy s cmd sn t_busy
  if busy.should then (.RESPOND busy.error_code busy.message, s)
  else
    let (fail, s) := should_fail s cmd sn cycles
    if fail.should then (.RESPOND fail.error_code fail.message, s)
    else
      let (tdec, s) := should_timeout s cmd sn cycles
      if tdec.should then
        if tdec.mode = "drop" then (.DROP tdec.delay_s, s) else (.DELAY tdec.delay_s, s)
      else (.PASS, s)

/-! ### Device model operations (`device_model.py`) -/

/-- `round(x, 4)` / `round(x, 6)`: a deterministic rounding stand-in
(the claims never depend on the rounded digits, only on determinism). -/
def pyround (ndigits : ℕ) (q : ℚ) : ℚ :=
  (⌊q * (10 : ℚ) ^ ndigits + 1/2⌋ : ℚ) / (10 : ℚ) ^ ndigits

/-- `DeviceModel.get_or_create(sn)` at wall-clock instant `t` (used for
the initial `last_update_s`). -/
def get_or_create (s : DutState) (sn : String) (t : ℚ) : DeviceState × DutState :=
  match s.devices sn with
  | some d => (d, s)
  | none =>
    let df := s.device_defaults
    let mode := upperStr (df.mode.getD "NORMAL")
    let d : DeviceState :=
      { sn := sn
        fw := df.fw.getD "1.0.0"
        mode := if mode = "NORMAL" ∨ mode = "SAFE" then mode else "NORMAL"
        temp_c := df.temp_c.getD 25
        vbat_v := df.vbat_v.getD 12
        temp_noise_sigma := df.temp_noise_sigma.getD (5/100)
        vbat_noise_sigma := df.vbat_noise_sigma.getD (2/100)
        temp_drift_per_cycle_c := df.temp_drift_per_cycle_c.getD 0
        vbat_drift_per_cycle_v := df.vbat_drift_per_cycle_v.getD 0
        self_test_fail_p_base := df.self_test_fail_p_base.getD (1/100)
        burn_in_fail_slope := df.burn_in_fail_slope.getD (5/100000)
        cycles := 0
        last_update_s := t }
    (d, { s with devices := fun k => if k = sn then some d else s.devices k })

/-- Temperature random-walk scale in `DeviceModel._update_signals`:
`0.01 if d.mode == "NORMAL" else 0.005`. -/
def wander_scale (mode : String) : ℚ :=
  if mode = "NORMAL" then 1/100 else 1/200

/-- Voltage random-walk scale in `DeviceModel._update_signals`:
`0.005 if d.mode == "NORMAL" else 0.003`. -/
def v_wander_scale (mode : String) : ℚ :=
  if mode = "NORMAL" then 1/200 else 3/1000

/-- `DeviceModel._update_signals(d)` at wall-clock instant `t`: the
time-proportional random walk followed by the physical-limit clamps. -/
def update_signals (s : DutState) (d : DeviceState) (t : ℚ) : DeviceState × DutState :=
  let dt := max 0 (t - d.last_update_s)
  let d := { d with last_update_s := t }
  let (r1, s) := rand s
  let d := { d with temp_c := d.temp_c + wander_scale d.mode * dt * (r1 - 1/2) }
  let (r2, s) := rand s
  let d := { d with vbat_v := d.vbat_v + v_wander_scale d.mode * dt * (r2 - 1/2) }
  let d := { d with temp_c := min (max d.temp_c (-40)) 125
                    vbat_v := min (max d.vbat_v 9) 16 }
  (d, s)

/-- `DeviceModel._apply_burn_in(d)`. -/
def apply_burn_in (d : DeviceState) : DeviceState :=
  { d with cycles := d.cycles + 1
           temp_c := d.temp_c + d.temp_drift_per_cycle_c
           vbat_v := d.vbat_v + d.vbat_drift_per_cycle_v }

/-- Store a device back under its lookup key (the source mutates the
dataclass held in `DeviceModel._devices[sn]` in place). -/
def put_device (s : DutState) (sn : String) (d : DeviceState) : DutState :=
  { s with devices := fun k => if k = sn then some d else s.devices k }

/-- JSON scalar values appearing in response `data` maps. -/
inductive JVal where
  | s (v : String)
  | q (v : ℚ)
  | n (v : ℕ)
  | b (v : Bool)
  | null
  deriving DecidableEq

/-- `DeviceModel.ping(sn)` at instant `t`. -/
def ping (s : DutState) (sn : String) (t : ℚ) : List (String × JVal) × DutState :=
  let (d, s) := get_or_create s sn t
  let (d, s) := update_signals s d t
  let s := put_device s sn d
  ([("sn", .s d.sn), ("fw", .s d.fw), ("mode", .s d.mode),
    ("vbat_v", .q (pyround 4 (d.vbat_v + d.drift_offset_v)))], s)

/-- `DeviceModel.read_temp(sn)` at instant `t`. -/
def read_temp (s : DutState) (sn : String) (t : ℚ) : List (String × JVal) × DutState :=
  let (d, s) := get_or_create s sn t
  let d := apply_burn_in d
  let (d, s) := update_signals s d t
  let s := put_device s sn d
  let temp_true := d.temp_c + d.drift_offset_c
  let vbat_true := d.vbat_v + d.drift_offset_v
  let (temp_meas, s) := gauss s temp_true d.temp_noise_sigma
  let (vbat_meas, s) := gauss s vbat_true d.vbat_noise_sigma
  ([("sn", .s d.sn), ("temp_c", .q (pyround 4 temp_meas)),
    ("vbat_v", .q (pyround 4 vbat_meas)), ("cycles", .n d.cycles)], s)

/-- `DeviceModel.self_test(sn)` at instant `t`. -/
def self_test (s : DutState) (sn : String) (t : ℚ) : List (String × JVal) × DutState :=
  let (d, s) := get_or_create s sn t
  let d := apply_burn_in d
  let (d, s) := update_signals s d t
  let s := put_device s sn d
  let p_fail := d.self_test_fail_p_base + d.burn_in_fail_slope * (d.cycles : ℚ)
  let p_fail := if d.mode = "SAFE" then p_fail * (7/10) else p_fail
  let (r, s) := rand s
  let failed := r < p_fail
  ([("sn", .s d.sn), ("self_test_ok", .b (!failed)),
    ("p_fail", .q (pyround 6 p_fail)), ("cycles", .n d.cycles)], s)

/-- `DeviceModel.set_temp(sn, temp_c)` at instant `t`. -/
def set_temp (s : DutState) (sn : String) (temp_c : ℚ) (t : ℚ) :
    List (String × JVal) × DutState :=
  let (d, s) := get_or_create s sn t
  let d := { d with temp_c := temp_c }
  let s := put_device s sn d
  ([("sn", .s d.sn), ("temp_c", .q (pyround 4 d.temp_c))], s)

/-! ### Protocol codec and server dispatch (`protocol.py`, `server.py`) -/

/-- A response record `{ok, error_code, message, data, meta:{cmd}}`. -/
structure Resp where
  ok : Bool
  error_code : Option String
  message : String
  data : List (String × JVal)
  meta : Option String
  deriving DecidableEq

/-- `protocol.ok(data, cmd=cmd)`. -/
def ok_resp (data : List (String × JVal)) (cmd : String) : Resp :=
  { ok := true, error_code := none, message := "OK", data := data,
    meta := if cmd = "" then none else some cmd }

/-- `protocol.err(code, message, cmd=cmd)`. -/
def err_resp (code message cmd : String) : Resp :=
  { ok := false, error_code := some code, message := message, data := [],
    meta := if cmd = "" then none else some cmd }

/-- `protocol.parse_command(line)`: strip, whitespace-split, uppercase
the command token. -/
def parse_command (line : String) : String × List String :=
  match pySplit line with
  | [] => ("", [])
  | c :: args => (upperStr c, args)

/-- A simplified `float(str)` parser: optional sign, digits, optional
fractional part.  Python's grammar also admits exponents and specials;
no claim depends on those forms. -/
def parseFloat (tok : String) : Option ℚ :=
  let core (ds : List Char) : Option ℚ :=
    let intPart := ds.takeWhile (fun c => c ≠ '.')
    let fracPart := (ds.dropWhile (fun c => c ≠ '.')).drop 1
    if intPart.all Char.isDigit ∧ fracPart.all Char.isDigit ∧
        (intPart ≠ [] ∨ fracPart ≠ []) then
      let iv : ℕ := intPart.foldl (fun acc c => acc * 10 + (c.toNat - 48)) 0
      let fv : ℕ := fracPart.foldl (fun acc c => acc * 10 + (c.toNat - 48)) 0
      some ((iv : ℚ) + (fv : ℚ) / (10 : ℚ) ^ fracPart.length)
    else none
  match tok.toList with
  | '-' :: ds => (core ds).map (fun q => -q)
  | '+' :: ds => core ds
  | ds => core ds

/-- The tail of `DutServer._dispatch`'s `SET_TEMP` branch: evaluate the
injector (no drift update for this command), then act on the decision
(`DELAY` sleeps then proceeds; sleeping is a no-op here). -/
def set_temp_phase (s : DutState) (sn : String) (temp_c t : ℚ) : Option Resp × DutState :=
  let (d, s) := get_or_create s sn t
  let (decision, s) := evaluate s "SET_TEMP" sn d.cycles t t
  match decision with
  | .DROP _ => (none, s)
  | .RESPOND ec msg =>
    (some { ok := false, error_code := some ec, message := msg, data := [],
            meta := some "SET_TEMP" }, s)
  | _ =>
    let (data, s) := set_temp s sn temp_c t
    (some (ok_resp data "SET_TEMP"), s)

/-- The tail of `DutServer._dispatch`'s SN-command branch after the
drift update: evaluate the injector, then either respond with the fault,
drop, or run the device operation. -/
def sn_read_phase (s : DutState) (cmd sn : String) (cycles : ℕ) (t : ℚ) :
    Option Resp × DutState :=
  let (decision, s) := evaluate s cmd sn cycles t t
  match decision with
  | .DROP _ => (none, s)
  | .RESPOND ec msg =>
    (some { ok := false, error_code := some ec, message := msg, data := [],
            meta := some cmd }, s)
  | _ =>
    if cmd = "PING" then
      let (data, s) := ping s sn t
      (some (ok_resp data cmd), s)
    else if cmd = "READ_TEMP" then
      let (data, s) := read_temp s sn t
      (some (ok_resp data cmd), s)
    else
      let (data, s) := self_test s sn t
      (some (ok_resp data cmd), s)

/-- `DutServer._dispatch(line)` at wall-clock instant `t`; returns
`none` for a DROP (the connection is closed with no reply).  The two
clock readings inside `FaultInjector.evaluate` are both modelled as `t`
(intra-dispatch elapsed time is negligible and no run-level claim
depends on it). -/
def dispatch (s : DutState) (t : ℚ) (line : String) : Option Resp × DutState :=
  let (cmd, args) := parse_command line
  if cmd = "" then (some (err_resp E_BAD_ARGS "Empty command" "(empty)"), s)
  else if cmd = "SET_FAULT_PROFILE" then
    match args with
    | [name] =>
      let prof := ((s.fault_profiles name).orElse
        (fun _ => s.fault_profiles "clean")).getD {}
      (some (ok_resp [("profile", .s name)] cmd), { s with profile := prof })
    | _ => (some (err_resp E_BAD_ARGS "SET_FAULT_PROFILE requires 1 argument: <profile>" cmd), s)
  else if cmd = "SET_TEMP" then
    match args with
    | [sn, tok] =>
      match parseFloat tok with
      | none => (some (err_resp E_BAD_ARGS "temp_c must be a float" cmd), s)
      | some temp_c =>
        if temp_c < -40 ∨ temp_c > 125 then
          (some (err_resp E_OUT_OF_RANGE "temp_c out of range [-40.0, 125.0]" cmd), s)
        else set_temp_phase s sn temp_c t
    | _ => (some (err_resp E_BAD_ARGS "SET_TEMP requires 2 arguments: <sn> <temp_c>" cmd), s)
  else if cmd = "PING" ∨ cmd = "READ_TEMP" ∨ cmd = "SELF_TEST" then
    match args with
    | [sn] =>
      let (d, s) := get_or_create s sn t
      let (offc, offv) :=
        apply_drift s.profile cmd d.cycles d.drift_offset_c d.drift_offset_v
      let d := { d with drift_offset_c := offc, drift_offset_v := offv }
      let s := put_device s sn d
      sn_read_phase s cmd sn d.cycles t
    | _ => (some (err_resp E_BAD_ARGS (cmd ++ " requires 1 argument: <sn>") cmd), s)
  else (some (err_resp E_UNKNOWN_CMD ("Unknown command: " ++ cmd) cmd), s)

/-- Dispatch a whole timed request trace in arrival order; returns the
response (or `none` for DROP) of every request. -/
def runTrace (s : DutState) : List (ℚ × String) → List (Option Resp) × DutState
  | [] => ([], s)
  | (t, line) :: rest =>
    let (r, s) := dispatch s t line
    let (rs, s') := runTrace s rest
    (r :: rs, s')

/-- The server state as `DutServer.__init__` builds it: the seeded RNG
stream, the resolved active profile, the profile table, and the device
defaults; device map and fault contexts start empty. -/
def init_server (stream : ℕ → ℚ) (prof : FaultProfile)
    (profs : String → Option FaultProfile) (df : DeviceDefaults) : DutState :=
  { stream := stream, profile := prof, fault_profiles := profs, device_defaults := df }

/-! ### Runner (`runner.py`, `logger.py`) -/

/-- `LimitsSpec` dataclass (`plan_loader.py`).  Response-data values
subject to limits are JSON numbers; non-numeric values would raise in the
source's `float(...)` and are outside the modelled domain. -/
structure LimitsSpec where
  field : String
  min : Option ℚ := none
  max : Option ℚ := none
  equals : Option ℚ := none
  units : Option String := none
  deriving DecidableEq

/-- `StepSpec` dataclass (the fields the runner uses). -/
structure StepSpec where
  id : String
  name : String
  cmd : String
  retries : ℕ
  backoff_ms : ℕ
  timeout_s : ℚ
  limits : Option LimitsSpec := none
  req_ids : List String := []
  deriving DecidableEq

/-- What `DutClient.call` surfaces to the runner for one attempt. -/
structure CallResult where
  ok : Bool
  error_code : Option String := none
  message : String := ""
  data : List (String × ℚ) := []
  deriving DecidableEq

/-- `dict.get(field)` on a response `data` map. -/
def lookupField (data : List (String × ℚ)) (field : String) : Option ℚ :=
  (data.find? (fun kv => kv.1 = field)).map (fun kv => kv.2)

/-- `TestRunner._evaluate_limits(step, data)`: returns
`(passed, error_code, measurement, value, units)`. -/
def evaluate_limits (limits : Option LimitsSpec) (data : List (String × ℚ)) :
    Bool × Option String × Option String × Option ℚ × Option String :=
  match limits with
  | none => (true, none, none, none, none)
  | some lim =>
    let value := lookupField data lim.field
    match lim.equals with
    | some e =>
      let passed := value = some e
      (passed, if passed then none else some "LIMIT_FAIL", some lim.field, value, lim.units)
    | none =>
      let passed := true
      let passed := passed && (match lim.min, value with
        | some mn, some v => decide (mn ≤ v)
        | _, _ => true)
      let passed := passed && (match lim.max, value with
        | some mx, some v => decide (v ≤ mx)
        | _, _ => true)
      (passed, if passed then none else some "LIMIT_FAIL", some lim.field, value, lim.units)

/-- The spec's range-limit formula, written from its words: pass iff
(min is null ∨ v ≥ min) ∧ (max is null ∨ v ≤ max), where `v` is the
value resolved at `limits.field` in the response data — a bound is
satisfied only by an actually resolved value. -/
def spec_range_pass (lim : LimitsSpec) (data : List (String × ℚ)) : Prop :=
  (lim.min = none ∨ ∃ mn v, lim.min = some mn ∧
    lookupField data lim.field = some v ∧ mn ≤ v) ∧
  (lim.max = none ∨ ∃ mx v, lim.max = some mx ∧
    lookupField data lim.field = some v ∧ v ≤ mx)

/-- The fields of a `StepEvent` record the claims are about
(`StepEvent.make` fills `retry_count := max(0, attempt-1)`, which for
`attempt : ℕ` is truncated subtraction). -/
structure StepEvent where
  sn : String
  test_step : String
  command : String
  attempt : ℕ
  retry_count : ℕ
  retries_allowed : ℕ
  passed : Bool
  error_code : Option String
  measurement : Option String
  value : Option ℚ
  units : Option String
  will_retry : Bool
  deriving DecidableEq

/-- One iteration of the attempt loop body in `TestRunner.run_step`:
apply transport outcome, then limit checks, then build the event. -/
def attempt_event (sn : String) (step : StepSpec) (attempt : ℕ) (res : CallResult) :
    StepEvent :=
  let passed := res.ok
  let error_code := res.error_code
  let (passed, error_code, meas, val, units) :=
    if passed then
      let (lim_ok, lim_ec, meas, val, units) := evaluate_limits step.limits res.data
      if ¬ lim_ok then (false, lim_ec, meas, val, units)
      else (passed, error_code, meas, val, units)
    else (passed, error_code, none, none, none)
  let will_retry := (¬ passed) ∧ attempt ≤ step.retries
  { sn := sn, test_step := step.id, command := step.cmd, attempt := attempt,
    retry_count := attempt - 1, retries_allowed := step.retries,
    passed := passed, error_code := error_code,
    measurement := meas, value := val, units := units, will_retry := will_retry }

/-- The attempt loop of `TestRunner.run_step`
(`for attempt in range(1, retries_allowed + 2)`), as the list of events
it logs; `results` gives the transport outcome of each attempt.  The
fuel argument keeps `attempt + fuel = retries + 2` along the loop. -/
def run_step_from (sn : String) (step : StepSpec) (results : ℕ → CallResult) :
    ℕ → ℕ → List StepEvent
  | _, 0 => []
  | attempt, fuel + 1 =>
    let ev := attempt_event sn step attempt (results attempt)
    if ev.passed then [ev]
    else if attempt ≤ step.retries then
      ev :: run_step_from sn step results (attempt + 1) fuel
    else [ev]

/-- Events logged by one `TestRunner.run_step` call. -/
def run_step_events (sn : String) (step : StepSpec) (results : ℕ → CallResult) :
    List StepEvent :=
  run_step_from sn step results 1 (step.retries + 1)

/-- Events logged by `TestRunner.run_sn` (the firmware-discovery `PING`
logs nothing): one `run_step` per plan step, in plan order. -/
def run_sn_events (plan : List StepSpec) (sn : String)
    (results : StepSpec → ℕ → CallResult) : List StepEvent :=
  plan.flatMap (fun step => run_step_events sn step (results step))

/-- Events logged by `TestRunner.run_batch` over the SN list. -/
def run_batch_events (plan : List StepSpec) (sns : List String)
    (results : String → StepSpec → ℕ → CallResult) : List StepEvent :=
  sns.flatMap (fun sn => run_sn_events plan sn (results sn))

/-! ### Traceability gate (`coverage.py`, `TestRunner.__init__`) -/

/-- A requirements registry: `req_id → title`. -/
def Registry := List (String × String)

/-- One row of the coverage matrix: `req_id, title, covered, mapped_steps`. -/
structure CoverageRow where
  req_id : String
  title : String
  covered : String
  mapped_steps : List String
  deriving DecidableEq

/-- `validate_coverage(requirements, step_req_pairs)`: raises on an
uncovered requirement or an unknown referenced requirement. -/
def validate_coverage (reqs : Registry) (step_pairs : List (String × List String)) :
    Except String Unit :=
  let req_ids := reqs.map (fun r => r.1)
  let covered := step_pairs.flatMap (fun p => p.2)
  let missing := req_ids.filter (fun r => ¬ covered.contains r)
  if missing ≠ [] then .error "Uncovered requirements"
  else
    let referenced := covered.filter (fun r => ¬ req_ids.contains r)
    if referenced ≠ [] then .error "Plan references unknown requirements"
    else .ok ()

/-- `generate_coverage_matrix(requirements, steps)`: one row per
requirement, sorted by `req_id`; `mapped_steps` lists the ids of the
steps referencing it, in plan order. -/
def generate_coverage_matrix (reqs : Registry) (step_pairs : List (String × List String)) :
    List CoverageRow :=
  (reqs.mergeSort (fun a b => a.1 ≤ b.1)).map (fun r =>
    let mapped := (step_pairs.filter (fun p => p.2.contains r.1)).map (fun p => p.1)
    { req_id := r.1, title := r.2,
      covered := if mapped ≠ [] then "Y" else "N", mapped_steps := mapped })

/-- The traceability part of `TestRunner.__init__`: when a registry was
resolved, validate the ungated plan against it and produce the coverage
matrix to be written; an invalid plan raises out of the constructor. -/
def runner_init (reqs : Option Registry) (raw_pairs : List (String × List String)) :
    Except String (Option (List CoverageRow)) :=
  match reqs with
  | none => .ok none
  | some R =>
    match validate_coverage R raw_pairs with
    | .error e => .error e
    | .ok _ => .ok (some (generate_coverage_matrix R raw_pairs))

/-- Construction followed by the batch: DUT calls and event logging
happen only inside `run_batch`, after `runner_init` succeeded. -/
def runner_run (reqs : Option Registry) (raw_pairs : List (String × List String))
    (plan : List StepSpec) (sns : List String)
    (results : String → StepSpec → ℕ → CallResult) :
    Except String (Option (List CoverageRow) × List StepEvent) :=
  match runner_init reqs raw_pairs with
  | .error e => .error e
  | .ok cov => .ok (cov, run_batch_events plan sns results)

/-! ### Stratification (`stratification.py`) -/

/-- An analytics event as read back from the structured log
(`ev.get(...)` defaults are folded into the field types). -/
structure AEvent where
  sn : String := ""
  test_step : String := ""
  attempt : ℕ := 1
  passed : Bool := false
  measurement : Option String := none
  value : Option ℚ := none
  fw_version : String := "UNKNOWN"
  stage : String := "UNKNOWN"
  batch_id : String := "UNKNOWN"
  deriving DecidableEq

/-- The winner of the max-attempt scan in `_final_pass_by_sn` for one
`(sn, step)` group (a later event replaces on `att >= current`). -/
def final_event (events : List AEvent) (sn step : String) : Option AEvent :=
  events.foldl (fun acc ev =>
    if ev.sn = sn ∧ ev.test_step = step then
      match acc with
      | none => some ev
      | some cur => if cur.attempt ≤ ev.attempt then some ev else some cur
    else acc) none

/-- The distinct non-empty step ids seen in the log. -/
def stepsOf (events : List AEvent) : List String :=
  ((events.map (fun ev => ev.test_step)).filter (fun s => s ≠ "")).dedup

/-- The distinct non-empty SNs seen in the log. -/
def snsOf (events : List AEvent) : List String :=
  ((events.map (fun ev => ev.sn)).filter (fun s => s ≠ "")).dedup

/-- `_final_pass_by_sn`: the SN passes iff every step seen anywhere in
the log has a final event for this SN and it passed. -/
def final_pass (events : List AEvent) (sn : String) : Bool :=
  (stepsOf events).all (fun step =>
    match final_event events sn step with
    | some e => e.passed
    | none => false)

/-- The passing `temp_c` measurement values of one SN, in log order. -/
def tempsOf (events : List AEvent) (sn : String) : List ℚ :=
  (events.filter (fun ev =>
    ev.measurement = some "temp_c" ∧ ev.passed ∧ ev.sn = sn ∧ ev.value.isSome)).filterMap
    (fun ev => ev.value)

/-- The temperature bin boundaries of `stratify`. -/
def tempBin (avg : ℚ) : String :=
  if avg < 20 then "<20C"
  else if avg < 30 then "20-30C"
  else if avg < 40 then "30-40C"
  else ">=40C"

/-- The `temp_bin` group an SN lands in: the bin of the average of its
passing `temp_c` values, or the aggregation fallback `"UNKNOWN"` when it
has none (`group_by_sn.get(sn, "UNKNOWN")`). -/
def temp_group (events : List AEvent) (sn : String) : String :=
  match tempsOf events sn with
  | [] => "UNKNOWN"
  | xs => tempBin (xs.sum / xs.length)

/-- One output row of `stratify`. -/
structure StratRow where
  key : String
  group : String
  units : ℕ
  fty : ℚ
  deriving DecidableEq

/-- `stratify(events, key="temp_bin")`: group every observed SN by its
temperature bin (or `"UNKNOWN"`), then emit one row per group in
ascending group order with the unit count and the final-test yield. -/
def strat_temp_bin (events : List AEvent) : List StratRow :=
  let sns := snsOf events
  let gs := ((sns.map (temp_group events)).dedup).mergeSort (fun a b => a ≤ b)
  gs.map (fun g =>
    let members := sns.filter (fun sn => temp_group events sn = g)
    { key := "temp_bin", group := g, units := members.length,
      fty := if members.length = 0 then 0
        else ((members.filter (final_pass events)).length : ℚ) / members.length })

/-! ## Supporting lemmas -/


/-- Neither RNG consumption nor context updates touch the device map. -/
theorem rand_devices (s : DutState) : (rand s).2.devices = s.devices := rfl

theorem uniform_devices (s : DutState) (lo hi : ℚ) :
    (uniform s lo hi).2.devices = s.devices := rfl

theorem markov_step_devices (s : DutState) (cmd sn : String) :
    (markov_step s cmd sn).2.devices = s.devices := by
  simp only [markov_step, rand]
  split <;> rfl

theorem markov_fail_add_devices (s : DutState) (cmd sn : String) :
    (markov_fail_add s cmd sn).2.devices = s.devices := by
  simp only [markov_fail_add]
  split
  · rfl
  · have h := markov_step_devices s cmd sn
    split <;> simp_all

theorem markov_timeout_add_devices (s : DutState) (cmd sn : String) :
    (markov_timeout_add s cmd sn).2.devices = s.devices := by
  have h := markov_step_devices s cmd sn
  simp only [markov_timeout_add]
  split_ifs <;> simp_all [uniform, rand]

theorem should_busy_devices (s : DutState) (cmd sn : String) (now : ℚ) :
    (should_busy s cmd sn now).2.devices = s.devices := by
  simp only [should_busy, rand]
  split <;> [rfl; (split <;> [split <;> rfl; rfl])]

theorem should_fail_devices (s : DutState) (cmd sn : String) (cycles : ℕ) :
    (should_fail s cmd sn cycles).2.devices = s.devices := by
  have h := markov_fail_add_devices s cmd sn
  simp only [should_fail, rand]
  split <;> simp_all

theorem should_timeout_devices (s : DutState) (cmd sn : String) (cycles : ℕ) :
    (should_timeout s cmd sn cycles).2.devices = s.devices := by
  have h := markov_timeout_add_devices s cmd sn
  simp only [should_timeout, rand, uniform]
  split <;> simp_all

theorem evaluate_entry_devices (s : DutState) (cmd sn : String) (t : ℚ) :
    (evaluate_entry s cmd sn t).devices = s.devices := rfl

theorem evaluate_devices (s : DutState) (cmd sn : String) (cycles : ℕ) (t1 t2 : ℚ) :
    (evaluate s cmd sn cycles t1 t2).2.devices = s.devices := by
  have h1 := should_busy_devices (evaluate_entry s cmd sn t1) cmd sn t2
  have h2 := should_fail_devices (should_busy (evaluate_entry s cmd sn t1) cmd sn t2).2 cmd sn cycles
  have h3 := should_timeout_devices
    (should_fail (should_busy (evaluate_entry s cmd sn t1) cmd sn t2).2 cmd sn cycles).2 cmd sn cycles
  simp only [evaluate]
  split_ifs <;> simp_all [evaluate_entry_devices]

/-- Drift offsets of a device are preserved by the post-evaluate device
operation of each SN-bearing read command. -/
theorem update_signals_drift (s : DutState) (d : DeviceState) (t : ℚ) :
    ((update_signals s d t).1.drift_offset_c, (update_signals s d t).1.drift_offset_v) =
      (d.drift_offset_c, d.drift_offset_v) := rfl

theorem apply_burn_in_drift_c (d : DeviceState) :
    (apply_burn_in d).drift_offset_c = d.drift_offset_c := rfl

theorem apply_burn_in_drift_v (d : DeviceState) :
    (apply_burn_in d).drift_offset_v = d.drift_offset_v := rfl

theorem update_signals_drift_c (s : DutState) (d : DeviceState) (t : ℚ) :
    (update_signals s d t).1.drift_offset_c = d.drift_offset_c := rfl

theorem update_signals_drift_v (s : DutState) (d : DeviceState) (t : ℚ) :
    (update_signals s d t).1.drift_offset_v = d.drift_offset_v := rfl

theorem get_or_create_found (s : DutState) (sn : String) (t : ℚ) (d : DeviceState)
    (h : s.devices sn = some d) : get_or_create s sn t = (d, s) := by
  simp [get_or_create, h]

theorem get_or_create_profile (s : DutState) (sn : String) (t : ℚ) :
    (get_or_create s sn t).2.profile = s.profile := by
  unfold get_or_create
  split <;> rfl

theorem get_or_create_fst_cycles (s : DutState) (sn : String) (t : ℚ)
    (h : s.devices sn = none) : (get_or_create s sn t).1.cycles = 0 := by
  simp [get_or_create, h]

/-- Through the decision phase of an SN-bearing read command, the drift
offsets stored for `sn` are unchanged: the device operations touch only
signals, cycles and timestamps. -/
theorem sn_read_phase_drift (s : DutState) (cmd sn : String) (cyc : ℕ) (t : ℚ)
    (d : DeviceState) (h : s.devices sn = some d) :
    (((sn_read_phase s cmd sn cyc t).2).devices sn).map
      (fun x => (x.drift_offset_c, x.drift_offset_v)) =
      some (d.drift_offset_c, d.drift_offset_v) := by
  rcases hev : evaluate s cmd sn cyc t t with ⟨dec, s1⟩
  have hd : s1.devices = s.devices := by
    have := evaluate_devices s cmd sn cyc t t
    rw [hev] at this
    exact this
  cases dec <;>
    simp [sn_read_phase, hev, hd, h, ping, read_temp, self_test, get_or_create,
      put_device, update_signals_drift_c, update_signals_drift_v,
      apply_burn_in_drift_c, apply_burn_in_drift_v, gauss, rand] <;>
    split_ifs <;>
    simp [ping, read_temp, self_test, get_or_create, hd, h, put_device,
      update_signals_drift_c, update_signals_drift_v,
      apply_burn_in_drift_c, apply_burn_in_drift_v, gauss, rand]

theorem get_or_create_devices_self (s : DutState) (sn : String) (t : ℚ) :
    (get_or_create s sn t).2.devices sn = some (get_or_create s sn t).1 := by
  unfold get_or_create
  split
  · simp_all
  · simp

/-- Through the `SET_TEMP` branch, the drift offsets stored for `sn` are
unchanged (and in particular no drift update is applied). -/
theorem set_temp_phase_drift (s : DutState) (sn : String) (temp t : ℚ) :
    ∀ d, (set_temp_phase s sn temp t).2.devices sn = some d →
      (d.drift_offset_c, d.drift_offset_v) =
        ((get_or_create s sn t).1.drift_offset_c,
          (get_or_create s sn t).1.drift_offset_v) := by
  rcases hgc : get_or_create s sn t with ⟨d0, s1⟩
  have h1 : s1.devices sn = some d0 := by
    have := get_or_create_devices_self s sn t
    rw [hgc] at this
    exact this
  rcases hev : evaluate s1 "SET_TEMP" sn d0.cycles t t with ⟨dec, s3⟩
  have h3 : s3.devices = s1.devices := by
    have := evaluate_devices s1 "SET_TEMP" sn d0.cycles t t
    rw [hev] at this
    exact this
  cases dec <;>
    simp_all [set_temp_phase, hgc, hev, set_temp, get_or_create, h3, h1, put_device]



/-- Every event the attempt loop emits from attempt `a` with `fuel`
remaining attempts is the event of some attempt number in `[a, a+fuel)`. -/
theorem run_step_from_mem (sn : String) (step : StepSpec) (results : ℕ → CallResult) :
    ∀ (fuel a : ℕ) (ev : StepEvent), ev ∈ run_step_from sn step results a fuel →
      ∃ k, a ≤ k ∧ k < a + fuel ∧ ev = attempt_event sn step k (results k) := by
  intro fuel
  induction fuel with
  | zero => intro a ev h; simp [run_step_from] at h
  | succ n ih =>
    intro a ev h
    simp only [run_step_from] at h
    split_ifs at h with h1 h2
    · simp at h
      exact ⟨a, le_refl a, by omega, h⟩
    · rcases List.mem_cons.mp h with h | h
      · exact ⟨a, le_refl a, by omega, h⟩
      · obtain ⟨k, hk1, hk2, hk3⟩ := ih (a + 1) ev h
        exact ⟨k, by omega, by omega, hk3⟩
    · simp at h
      exact ⟨a, le_refl a, by omega, h⟩



/-- `validate_coverage` succeeds exactly when every registry requirement
is referenced by some step and every referenced id is in the registry. -/
theorem validate_coverage_ok_iff (R : Registry) (pairs : List (String × List String)) :
    validate_coverage R pairs = .ok () ↔
      ((∀ r ∈ R.map Prod.fst, r ∈ pairs.flatMap Prod.snd) ∧
       (∀ c ∈ pairs.flatMap Prod.snd, c ∈ R.map Prod.fst)) := by
  simp only [validate_coverage]
  split_ifs with h1 h2
  · simp only [ne_eq, List.filter_eq_nil_iff, not_forall] at h1
    constructor
    · intro h; cases h
    · rintro ⟨ha, hb⟩
      obtain ⟨r, hr, hmem⟩ := h1
      simp at hmem
      exact absurd (ha r hr) (by simpa using hmem)
  · simp only [ne_eq, List.filter_eq_nil_iff, not_forall] at h2
    constructor
    · intro h; cases h
    · rintro ⟨ha, hb⟩
      obtain ⟨c, hc, hmem⟩ := h2
      simp at hmem
      exact absurd (hb c hc) (by simpa using hmem)
  · simp only [ne_eq, not_not, List.filter_eq_nil_iff] at h1 h2
    constructor
    · intro _
      constructor
      · intro r hr
        have := h1 r hr
        simpa using this
      · intro c hc
        have := h2 c hc
        simpa using this
    · intro _; rfl



/-- Profile and context bookkeeping: RNG draws touch neither, the busy
gate touches neither, and each stage's context equals the context left
by its markov step. -/
theorem should_busy_state (s : DutState) (cmd sn : String) (now : ℚ) :
    (should_busy s cmd sn now).2.ctx = s.ctx ∧
    (should_busy s cmd sn now).2.profile = s.profile := by
  simp only [should_busy, rand]
  split_ifs <;> simp_all

theorem markov_step_profile (s : DutState) (cmd sn : String) :
    (markov_step s cmd sn).2.profile = s.profile := by
  simp only [markov_step, rand]
  split_ifs <;> rfl

theorem markov_step_ctx_state (s : DutState) (cmd sn : String)
    (h : (markov_cfg s.profile).enabled.getD false = true) :
    ((markov_step s cmd sn).2.ctx (sn, cmd)).markov_state = (markov_step s cmd sn).1 := by
  simp only [markov_step, rand, h]
  simp

theorem markov_fail_add_ctx (s : DutState) (cmd sn : String)
    (h : (markov_cfg s.profile).enabled.getD false = true) :
    (markov_fail_add s cmd sn).2.ctx = (markov_step s cmd sn).2.ctx ∧
    (markov_fail_add s cmd sn).2.profile = s.profile ∧
    (markov_fail_add s cmd sn).1 =
      (if (markov_step s cmd sn).1 = MarkovState.BAD
        then (markov_cfg s.profile).fail_p_bad_state.getD 0 else 0) := by
  simp only [markov_fail_add, h]
  split_ifs <;> simp_all [markov_step_profile]

theorem markov_timeout_add_ctx (s : DutState) (cmd sn : String)
    (h : (markov_cfg s.profile).enabled.getD false = true) :
    (markov_timeout_add s cmd sn).2.ctx = (markov_step s cmd sn).2.ctx ∧
    (markov_timeout_add s cmd sn).2.profile = s.profile ∧
    (markov_timeout_add s cmd sn).1.1 =
      (if (markov_step s cmd sn).1 = MarkovState.BAD
        then (markov_cfg s.profile).timeout_p_bad_state.getD 0 else 0) := by
  simp only [markov_timeout_add, h]
  split_ifs <;> simp_all [markov_step_profile, uniform, rand]

theorem should_fail_ctx (s : DutState) (cmd sn : String) (cyc : ℕ)
    (h : (markov_cfg s.profile).enabled.getD false = true) :
    (should_fail s cmd sn cyc).2.ctx = (markov_step s cmd sn).2.ctx ∧
    (should_fail s cmd sn cyc).2.profile = s.profile := by
  have := markov_fail_add_ctx s cmd sn h
  simp only [should_fail, rand]
  split_ifs <;> simp_all

theorem should_timeout_ctx (s : DutState) (cmd sn : String) (cyc : ℕ)
    (h : (markov_cfg s.profile).enabled.getD false = true) :
    (should_timeout s cmd sn cyc).2.ctx = (markov_step s cmd sn).2.ctx ∧
    (should_timeout s cmd sn cyc).2.profile = s.profile := by
  have := markov_timeout_add_ctx s cmd sn h
  simp only [should_timeout, uniform, rand]
  split_ifs <;> simp_all



/-- Swapping the stored profile for one with the same
`intermittent_markov` block changes nothing about a markov step: the
resulting state is the profile-swap of the unswapped run's state. -/
theorem markov_fail_add_profile (s : DutState) (cmd sn : String) :
    (markov_fail_add s cmd sn).2.profile = s.profile := by
  simp only [markov_fail_add]
  split_ifs <;> simp_all [markov_step_profile]

theorem should_fail_profile (s : DutState) (cmd sn : String) (cyc : ℕ) :
    (should_fail s cmd sn cyc).2.profile = s.profile := by
  have := markov_fail_add_profile s cmd sn
  simp only [should_fail, rand]
  split_ifs <;> simp_all

theorem markov_step_swap (s : DutState) (p2 : FaultProfile) (cmd sn : String)
    (hm : p2.intermittent_markov = s.profile.intermittent_markov) :
    markov_step { s with profile := p2 } cmd sn =
      ((markov_step s cmd sn).1, { (markov_step s cmd sn).2 with profile := p2 }) := by
  simp only [markov_step, markov_cfg, rand, hm]
  split_ifs <;> simp_all

theorem markov_fail_add_swap (s : DutState) (p2 : FaultProfile) (cmd sn : String)
    (hm : p2.intermittent_markov = s.profile.intermittent_markov) :
    markov_fail_add { s with profile := p2 } cmd sn =
      ((markov_fail_add s cmd sn).1, { (markov_fail_add s cmd sn).2 with profile := p2 }) := by
  have hstep := markov_step_swap s p2 cmd sn hm
  simp only [markov_fail_add, markov_cfg, hm, hstep]
  split_ifs <;> simp_all

theorem markov_timeout_add_swap (s : DutState) (p2 : FaultProfile) (cmd sn : String)
    (hm : p2.intermittent_markov = s.profile.intermittent_markov) :
    markov_timeout_add { s with profile := p2 } cmd sn =
      ((markov_timeout_add s cmd sn).1,
        { (markov_timeout_add s cmd sn).2 with profile := p2 }) := by
  have hstep := markov_step_swap s p2 cmd sn hm
  simp only [markov_timeout_add, markov_cfg, hm, hstep, uniform, rand]
  split_ifs <;> simp_all

theorem should_busy_swap (s : DutState) (p2 : FaultProfile) (cmd sn : String) (now : ℚ)
    (hbusy : (cfg_for p2 cmd).busy = (cfg_for s.profile cmd).busy) :
    should_busy { s with profile := p2 } cmd sn now =
      ((should_busy s cmd sn now).1, { (should_busy s cmd sn now).2 with profile := p2 }) := by
  simp only [should_busy, rand, hbusy]
  split_ifs <;> simp_all

theorem should_fail_swap (s : DutState) (p2 : FaultProfile) (cmd sn : String) (cyc : ℕ)
    (hfail : (cfg_for p2 cmd).fail = (cfg_for s.profile cmd).fail)
    (hbe : ∀ c, burn_in_effect p2 c = burn_in_effect s.profile c)
    (hm : p2.intermittent_markov = s.profile.intermittent_markov) :
    should_fail { s with profile := p2 } cmd sn cyc =
      ((should_fail s cmd sn cyc).1, { (should_fail s cmd sn cyc).2 with profile := p2 }) := by
  have hadd := markov_fail_add_swap s p2 cmd sn hm
  simp only [should_fail, rand, hfail, hbe, hadd]
  split_ifs <;> simp_all

theorem should_timeout_swap (s : DutState) (p2 : FaultProfile) (cmd sn : String) (cyc : ℕ)
    (htimeout : (cfg_for p2 cmd).timeout = (cfg_for s.profile cmd).timeout)
    (hm : p2.intermittent_markov = s.profile.intermittent_markov) :
    should_timeout { s with profile := p2 } cmd sn cyc =
      ((should_timeout s cmd sn cyc).1,
        { (should_timeout s cmd sn cyc).2 with profile := p2 }) := by
  have hadd := markov_timeout_add_swap s p2 cmd sn hm
  simp only [should_timeout, uniform, rand, htimeout, hadd]
  split_ifs <;> simp_all

/-- Swapping the stored profile for one whose `busy`, `fail` and
`timeout` sections merge identically for `cmd`, whose burn-in
multipliers agree, and whose markov block agrees, leaves the whole
`evaluate` decision unchanged: the action is identical and the final
state is the profile-swap of the unswapped run's state. -/
theorem evaluate_swap (s : DutState) (p2 : FaultProfile) (cmd sn : String) (cyc : ℕ)
    (t1 t2 : ℚ)
    (hbusy : (cfg_for p2 cmd).busy = (cfg_for s.profile cmd).busy)
    (hfail : (cfg_for p2 cmd).fail = (cfg_for s.profile cmd).fail)
    (htimeout : (cfg_for p2 cmd).timeout = (cfg_for s.profile cmd).timeout)
    (hbe : ∀ c, burn_in_effect p2 c = burn_in_effect s.profile c)
    (hm : p2.intermittent_markov = s.profile.intermittent_markov) :
    evaluate { s with profile := p2 } cmd sn cyc t1 t2 =
      ((evaluate s cmd sn cyc t1 t2).1,
        { (evaluate s cmd sn cyc t1 t2).2 with profile := p2 }) := by
  have hE : evaluate_entry { s with profile := p2 } cmd sn t1 =
      { evaluate_entry s cmd sn t1 with profile := p2 } := rfl
  have hB := should_busy_swap (evaluate_entry s cmd sn t1) p2 cmd sn t2 hbusy
  have hpB : ((should_busy (evaluate_entry s cmd sn t1) cmd sn t2).2).profile = s.profile :=
    (should_busy_state (evaluate_entry s cmd sn t1) cmd sn t2).2
  have hF := should_fail_swap ((should_busy (evaluate_entry s cmd sn t1) cmd sn t2).2)
    p2 cmd sn cyc (by rw [hpB]; exact hfail) (by rw [hpB]; exact hbe) (by rw [hpB]; exact hm)
  have hpF : ((should_fail ((should_busy (evaluate_entry s cmd sn t1) cmd sn t2).2)
      cmd sn cyc).2).profile = s.profile := by
    rw [should_fail_profile, hpB]
  have hT := should_timeout_swap
    ((should_fail ((should_busy (evaluate_entry s cmd sn t1) cmd sn t2).2) cmd sn cyc).2)
    p2 cmd sn cyc (by rw [hpF]; exact htimeout) (by rw [hpF]; exact hm)
  simp only [evaluate, hE, hB, hF, hT]
  split_ifs <;> simp_all

/-! ## Claim theorems -/


/-- C2: the BUSY rate-limit gate does not let the first request through.
`FaultInjector.evaluate` stamps `ctx.last_cmd_ts = time.time()` on entry
and `should_busy` then compares the current clock against that fresh
stamp, so with `min_interval_ms = 100 > 0` the very first request for
`(SN1, READ_TEMP)` — context still at its defaults, clock readings 0 —
already yields `RESPOND E_BUSY` instead of proceeding past the gate. -/
theorem C2_first_request_rate_limited :
    (Mtap.evaluate
      { stream := fun _ => 0
        profile := { default := some { busy := some { min_interval_ms := some 100 } } } }
      "READ_TEMP" "SN1" 0 0 0).1 =
      Mtap.Action.RESPOND "E_BUSY" ("Rate-limited: min_interval_ms=" ++ toString (100 : ℤ)) := by
  simp [Mtap.evaluate, Mtap.evaluate_entry, Mtap.should_busy, Mtap.cfg_for, Mtap.mergeBusy,
    Mtap.markov_cfg, Mtap.E_BUSY]

/-- C8 counterexample: the claim predicts a SAFE-mode voltage wander
scale of half the NORMAL scale, `0.005 / 2 = 0.0025`; the code uses
`0.003`.  Concretely, a SAFE device at `vbat_v = 12` touched after
`dt = 1` with draw `1` gains `0.003 · 1 · (1 − 0.5) = 0.0015`, not the
claimed `0.0025 · 1 · (1 − 0.5) = 0.00125`. -/
theorem C8_counterexample :
    (Mtap.v_wander_scale "SAFE" = 3/1000 ∧ Mtap.v_wander_scale "SAFE" ≠ (5/1000) / 2) ∧
    (Mtap.update_signals
        { stream := fun _ => 1, profile := {} }
        { sn := "SN1", fw := "1.0.0", mode := "SAFE", temp_c := 25, vbat_v := 12
          temp_noise_sigma := 0, vbat_noise_sigma := 0
          temp_drift_per_cycle_c := 0, vbat_drift_per_cycle_v := 0 }
        1).1.vbat_v = 12 + 3/2000 ∧
    (12 + 3/2000 : ℚ) ≠ 12 + ((5/1000) / 2) * 1 * (1 - 1/2) := by
  refine ⟨⟨by simp [Mtap.v_wander_scale], by simp [Mtap.v_wander_scale]; norm_num⟩,
    ?_, by norm_num⟩
  simp [Mtap.update_signals, Mtap.rand, Mtap.v_wander_scale, Mtap.wander_scale,
    min_def, max_def]
  norm_num

/-- C8 amended: on every touch the random walk uses scale `0.01` (temp)
and `0.005` (voltage) in NORMAL mode; in SAFE mode the temperature scale
is halved to `0.005` while the voltage scale is `0.003` (not the halved
`0.0025`); afterwards the signals are clamped to `[−40, 125]` °C and
`[9, 16]` V. -/
theorem C8_update_signals_scales_and_clamps (s : Mtap.DutState) (d : Mtap.DeviceState)
    (t : ℚ) :
    Mtap.wander_scale "NORMAL" = 1/100 ∧ Mtap.wander_scale "SAFE" = 1/200 ∧
    Mtap.v_wander_scale "NORMAL" = 1/200 ∧ Mtap.v_wander_scale "SAFE" = 3/1000 ∧
    (Mtap.update_signals s d t).1.temp_c =
      min (max (d.temp_c + Mtap.wander_scale d.mode * max 0 (t - d.last_update_s) *
        (s.stream s.idx - 1/2)) (-40)) 125 ∧
    (Mtap.update_signals s d t).1.vbat_v =
      min (max (d.vbat_v + Mtap.v_wander_scale d.mode * max 0 (t - d.last_update_s) *
        (s.stream (s.idx + 1) - 1/2)) 9) 16 ∧
    -40 ≤ (Mtap.update_signals s d t).1.temp_c ∧
    (Mtap.update_signals s d t).1.temp_c ≤ 125 ∧
    9 ≤ (Mtap.update_signals s d t).1.vbat_v ∧
    (Mtap.update_signals s d t).1.vbat_v ≤ 16 := by
  have h1 : (Mtap.update_signals s d t).1.temp_c =
      min (max (d.temp_c + Mtap.wander_scale d.mode * max 0 (t - d.last_update_s) *
        (s.stream s.idx - 1/2)) (-40)) 125 := rfl
  have h2 : (Mtap.update_signals s d t).1.vbat_v =
      min (max (d.vbat_v + Mtap.v_wander_scale d.mode * max 0 (t - d.last_update_s) *
        (s.stream (s.idx + 1) - 1/2)) 9) 16 := rfl
  refine ⟨by simp [Mtap.wander_scale], by simp [Mtap.wander_scale],
    by simp [Mtap.v_wander_scale], by simp [Mtap.v_wander_scale],
    h1, h2, ?_, ?_, ?_, ?_⟩
  · rw [h1]; exact le_min (le_max_right _ _) (by norm_num)
  · rw [h1]; exact min_le_right _ _
  · rw [h2]; exact le_min (le_max_right _ _) (by norm_num)
  · rw [h2]; exact min_le_right _ _

/-- C5 counterexample: the claim includes `SET_TEMP` among the commands
whose dispatch applies the drift update before evaluating the injector,
but the `SET_TEMP` branch never calls `apply_drift`: with a profile whose
drift is 1 °C per cycle, dispatching `SET_TEMP SN1 25` leaves the
device's `drift_offset_c` at `0`, although `apply_drift` would have
moved it to `1`. -/
theorem C5_counterexample :
    ((Mtap.dispatch
        { stream := fun _ => 0
          profile := { default := some { drift := some { temp_offset_per_cycle_c := some 1 } } } }
        0 "SET_TEMP SN1 25").2.devices "SN1").map Mtap.DeviceState.drift_offset_c =
      some 0 ∧
    Mtap.apply_drift
      { default := some { drift := some { temp_offset_per_cycle_c := some 1 } } }
      "SET_TEMP" 0 0 0 = (1, 0) ∧ (0 : ℚ) ≠ 1 := by
  have hparse : Mtap.parse_command "SET_TEMP SN1 25" = ("SET_TEMP", ["SN1", "25"]) := by decide
  have hfloat : Mtap.parseFloat "25" = some 25 := by simp [Mtap.parseFloat]
  refine ⟨?_, ?_, by norm_num⟩
  · simp [Mtap.dispatch, hparse, hfloat, Mtap.set_temp_phase, Mtap.get_or_create,
      Mtap.evaluate, Mtap.evaluate_entry,
      Mtap.should_busy, Mtap.should_fail, Mtap.should_timeout, Mtap.markov_fail_add,
      Mtap.markov_timeout_add, Mtap.markov_step, Mtap.markov_cfg, Mtap.cfg_for,
      Mtap.mergeBusy, Mtap.mergeFail, Mtap.mergeTimeout, Mtap.mergeDrift, Mtap.mergeBurnIn,
      Mtap.burn_in_effect, Mtap.rand, Mtap.uniform, Mtap.set_temp, Mtap.put_device,
      Mtap.upperStr, Mtap.lowerStr]
    norm_num
  · simp [Mtap.apply_drift, Mtap.cfg_for, Mtap.mergeDrift, Mtap.mergeBurnIn,
      Mtap.burn_in_effect]

/-- C5 amended: for `PING`, `READ_TEMP` and `SELF_TEST` the dispatch
resolves/creates the `DeviceState` and applies the injector's drift
update to its `drift_offset_c`/`drift_offset_v` before evaluating the
injector (the post-evaluate device operation preserves the offsets), but
the `SET_TEMP` dispatch evaluates the injector without any drift
update — its device's drift offsets are exactly those of the
resolved/created state. -/
theorem C5_amended (s s2 : DutState) (t t2 : ℚ) (line line2 cmd sn sn2 tok : String)
    (hp : parse_command line = (cmd, [sn]))
    (hc : cmd = "PING" ∨ cmd = "READ_TEMP" ∨ cmd = "SELF_TEST")
    (hp2 : parse_command line2 = ("SET_TEMP", [sn2, tok])) :
    (((dispatch s t line).2.devices sn).map
        (fun d => (d.drift_offset_c, d.drift_offset_v)) =
      some (apply_drift s.profile cmd (get_or_create s sn t).1.cycles
        (get_or_create s sn t).1.drift_offset_c (get_or_create s sn t).1.drift_offset_v)) ∧
    (∀ d, (dispatch s2 t2 line2).2.devices sn2 = some d →
      (d.drift_offset_c, d.drift_offset_v) =
        ((get_or_create s2 sn2 t2).1.drift_offset_c,
          (get_or_create s2 sn2 t2).1.drift_offset_v)) := by
  constructor
  · obtain ⟨d0, s1, hgc⟩ : ∃ d0 s1, get_or_create s sn t = (d0, s1) := ⟨_, _, rfl⟩
    have hprof : s1.profile = s.profile := by
      have := get_or_create_profile s sn t
      rw [hgc] at this
      exact this
    rcases hc with hc | hc | hc <;> subst hc <;>
    · simp only [dispatch, hp]
      simp only [hgc]
      simp [sn_read_phase_drift, put_device, hprof]
  · intro d hd
    rcases hpf : parseFloat tok with _ | temp
    · simp only [dispatch, hp2, hpf] at hd
      simp_all [get_or_create, hd]
    · by_cases hrange : temp < -40 ∨ temp > 125
      · simp only [dispatch, hp2, hpf] at hd
        rw [if_pos hrange] at hd
        simp_all [get_or_create, hd]
      · simp only [dispatch, hp2, hpf] at hd
        rw [if_neg hrange] at hd
        exact set_temp_phase_drift s2 sn2 temp t2 d hd


/-- C5 witness: the amended theorem applied to concrete first requests
`PING SN1` and `SET_TEMP SN1 25` against a clean-profile server. -/
theorem C5_amended_witness :
    Mtap.parse_command "PING SN1" = ("PING", ["SN1"]) ∧
    Mtap.parse_command "SET_TEMP SN1 25" = ("SET_TEMP", ["SN1", "25"]) ∧
    ((((Mtap.dispatch { stream := fun _ => 0, profile := {} } 0 "PING SN1").2.devices
          "SN1").map (fun d => (d.drift_offset_c, d.drift_offset_v)) =
      some (Mtap.apply_drift ({} : Mtap.FaultProfile) "PING"
        (Mtap.get_or_create { stream := fun _ => 0, profile := {} } "SN1" 0).1.cycles
        (Mtap.get_or_create { stream := fun _ => 0, profile := {} } "SN1" 0).1.drift_offset_c
        (Mtap.get_or_create { stream := fun _ => 0, profile := {} } "SN1" 0).1.drift_offset_v)) ∧
    (∀ d, (Mtap.dispatch { stream := fun _ => 0, profile := {} } 0
          "SET_TEMP SN1 25").2.devices "SN1" = some d →
      (d.drift_offset_c, d.drift_offset_v) =
        ((Mtap.get_or_create { stream := fun _ => 0, profile := {} } "SN1" 0).1.drift_offset_c,
          (Mtap.get_or_create { stream := fun _ => 0, profile := {} } "SN1" 0).1.drift_offset_v))) :=
  ⟨by decide, by decide,
    Mtap.C5_amended { stream := fun _ => 0, profile := {} }
      { stream := fun _ => 0, profile := {} } 0 0 "PING SN1" "SET_TEMP SN1 25"
      "PING" "SN1" "SN1" "25" (by decide) (Or.inl rfl) (by decide)⟩


/-- C1: determinism.  A server run is a pure function of the seed-derived
draw stream, the active fault profile, the profile table, the device
defaults, and the timed request trace: two runs agreeing on all of these
produce structurally identical responses, hence byte-identical bodies
under any serialisation (in particular every `temp_c`, `vbat_v` and
`p_fail` field agrees). -/
theorem C1_determinism (serialize : Resp → String) (stream1 stream2 : ℕ → ℚ)
    (prof1 prof2 : FaultProfile) (profs1 profs2 : String → Option FaultProfile)
    (df1 df2 : DeviceDefaults) (tr1 tr2 : List (ℚ × String))
    (hstream : stream1 = stream2) (hprof : prof1 = prof2) (hprofs : profs1 = profs2)
    (hdf : df1 = df2) (htr : tr1 = tr2) :
    (runTrace (init_server stream1 prof1 profs1 df1) tr1).1 =
      (runTrace (init_server stream2 prof2 profs2 df2) tr2).1 ∧
    ((runTrace (init_server stream1 prof1 profs1 df1) tr1).1).map (Option.map serialize) =
      ((runTrace (init_server stream2 prof2 profs2 df2) tr2).1).map (Option.map serialize) := by
  subst hstream
  subst hprof
  subst hprofs
  subst hdf
  subst htr
  exact ⟨rfl, rfl⟩

/-- C1 witness: the determinism theorem applied to a concrete seeded
server and the one-request trace `PING SN1`. -/
theorem C1_determinism_witness :
    (runTrace (init_server (fun _ => 0) {} (fun _ => none) {}) [(0, "PING SN1")]).1 =
      (runTrace (init_server (fun _ => 0) {} (fun _ => none) {}) [(0, "PING SN1")]).1 ∧
    ((runTrace (init_server (fun _ => 0) {} (fun _ => none) {}) [(0, "PING SN1")]).1).map
        (Option.map (fun _ => "")) =
      ((runTrace (init_server (fun _ => 0) {} (fun _ => none) {}) [(0, "PING SN1")]).1).map
        (Option.map (fun _ => "")) :=
  C1_determinism (fun _ => "") (fun _ => 0) (fun _ => 0) {} {} (fun _ => none)
    (fun _ => none) {} {} [(0, "PING SN1")] [(0, "PING SN1")] rfl rfl rfl rfl rfl

/-- C10: `burn_in_effect` reads only the `burn_in` section merged for
`READ_TEMP`; consequently two profiles differing solely in the `burn_in`
override of some other command `c0` yield identical burn-in multipliers,
identical `apply_drift` results, and — for every command — identical
`should_fail`, `should_busy` and `should_timeout` decisions and an
identical `evaluate` action (states agreeing up to the stored profile):
the override has no effect on any decision. -/
theorem C10_burn_in_scope (prof prof2 : FaultProfile) (c0 sn : String) (s : DutState)
    (hc0 : c0 ≠ "READ_TEMP")
    (hdef : prof2.default = prof.default)
    (hm : prof2.intermittent_markov = prof.intermittent_markov)
    (hother : ∀ c, c ≠ c0 → prof2.per_command c = prof.per_command c)
    (htimeout : (prof2.per_command c0).bind SectionCfg.timeout =
      (prof.per_command c0).bind SectionCfg.timeout)
    (hfail : (prof2.per_command c0).bind SectionCfg.fail =
      (prof.per_command c0).bind SectionCfg.fail)
    (hdrift : (prof2.per_command c0).bind SectionCfg.drift =
      (prof.per_command c0).bind SectionCfg.drift)
    (hbusy : (prof2.per_command c0).bind SectionCfg.busy =
      (prof.per_command c0).bind SectionCfg.busy) :
    (∀ cycles, burn_in_effect prof2 cycles = burn_in_effect prof cycles) ∧
    (∀ cmd cycles tc vc,
      apply_drift prof2 cmd cycles tc vc = apply_drift prof cmd cycles tc vc) ∧
    (∀ cmd cycles, should_fail { s with profile := prof2 } cmd sn cycles =
      ((should_fail { s with profile := prof } cmd sn cycles).1,
        { (should_fail { s with profile := prof } cmd sn cycles).2 with profile := prof2 })) ∧
    (∀ cmd now, should_busy { s with profile := prof2 } cmd sn now =
      ((should_busy { s with profile := prof } cmd sn now).1,
        { (should_busy { s with profile := prof } cmd sn now).2 with profile := prof2 })) ∧
    (∀ cmd cycles, should_timeout { s with profile := prof2 } cmd sn cycles =
      ((should_timeout { s with profile := prof } cmd sn cycles).1,
        { (should_timeout { s with profile := prof } cmd sn cycles).2 with
            profile := prof2 })) ∧
    (∀ cmd cycles t1 t2, evaluate { s with profile := prof2 } cmd sn cycles t1 t2 =
      ((evaluate { s with profile := prof } cmd sn cycles t1 t2).1,
        { (evaluate { s with profile := prof } cmd sn cycles t1 t2).2 with
            profile := prof2 })) := by
  have hRT := hother "READ_TEMP" (Ne.symm hc0)
  have hburn : (cfg_for prof2 "READ_TEMP").burn_in = (cfg_for prof "READ_TEMP").burn_in := by
    simp [cfg_for, hdef, hRT]
  have hbe : ∀ c, burn_in_effect prof2 c = burn_in_effect prof c := fun c => by
    simp only [burn_in_effect, hburn]
  have hsec : ∀ cmd, (cfg_for prof2 cmd).fail = (cfg_for prof cmd).fail ∧
      (cfg_for prof2 cmd).timeout = (cfg_for prof cmd).timeout ∧
      (cfg_for prof2 cmd).busy = (cfg_for prof cmd).busy ∧
      (cfg_for prof2 cmd).drift = (cfg_for prof cmd).drift := by
    intro cmd
    by_cases h : cmd = c0
    · subst h
      exact ⟨by simp [cfg_for, hdef, hfail], by simp [cfg_for, hdef, htimeout],
        by simp [cfg_for, hdef, hbusy], by simp [cfg_for, hdef, hdrift]⟩
    · have hpc := hother cmd h
      exact ⟨by simp [cfg_for, hdef, hpc], by simp [cfg_for, hdef, hpc],
        by simp [cfg_for, hdef, hpc], by simp [cfg_for, hdef, hpc]⟩
  refine ⟨hbe, ?_, ?_, ?_, ?_, ?_⟩
  · intro cmd cycles tc vc
    simp only [apply_drift, (hsec cmd).2.2.2, hbe]
  · intro cmd cycles
    exact should_fail_swap { s with profile := prof } prof2 cmd sn cycles
      (hsec cmd).1 hbe hm
  · intro cmd now
    exact should_busy_swap { s with profile := prof } prof2 cmd sn now (hsec cmd).2.2.1
  · intro cmd cycles
    exact should_timeout_swap { s with profile := prof } prof2 cmd sn cycles
      (hsec cmd).2.1 hm
  · intro cmd cycles t1 t2
    exact evaluate_swap { s with profile := prof } prof2 cmd sn cycles t1 t2
      (hsec cmd).2.2.1 (hsec cmd).1 (hsec cmd).2.1 hbe hm

/-- C10 witness: a pair of concrete profiles differing only in the
`PING` command's `burn_in` override. -/
theorem C10_burn_in_scope_witness :
    (let P1 : FaultProfile :=
      { default := some { burn_in := some { fail_p_multiplier_per_1k_cycles := some 1 } }
        per_command := fun c => if c = "PING" then some {} else none };
    let P2 : FaultProfile :=
      { default := some { burn_in := some { fail_p_multiplier_per_1k_cycles := some 1 } }
        per_command := fun c =>
          if c = "PING" then
            some { burn_in := some { fail_p_multiplier_per_1k_cycles := some 99 } }
          else none };
    let s0 : DutState := { stream := fun _ => 0, profile := P1 };
    (∀ cycles, burn_in_effect P2 cycles = burn_in_effect P1 cycles) ∧
    (∀ cmd cycles tc vc,
      apply_drift P2 cmd cycles tc vc = apply_drift P1 cmd cycles tc vc) ∧
    (∀ cmd cycles, should_fail { s0 with profile := P2 } cmd "SN1" cycles =
      ((should_fail { s0 with profile := P1 } cmd "SN1" cycles).1,
        { (should_fail { s0 with profile := P1 } cmd "SN1" cycles).2 with
            profile := P2 })) ∧
    (∀ cmd now, should_busy { s0 with profile := P2 } cmd "SN1" now =
      ((should_busy { s0 with profile := P1 } cmd "SN1" now).1,
        { (should_busy { s0 with profile := P1 } cmd "SN1" now).2 with
            profile := P2 })) ∧
    (∀ cmd cycles, should_timeout { s0 with profile := P2 } cmd "SN1" cycles =
      ((should_timeout { s0 with profile := P1 } cmd "SN1" cycles).1,
        { (should_timeout { s0 with profile := P1 } cmd "SN1" cycles).2 with
            profile := P2 })) ∧
    (∀ cmd cycles t1 t2, evaluate { s0 with profile := P2 } cmd "SN1" cycles t1 t2 =
      ((evaluate { s0 with profile := P1 } cmd "SN1" cycles t1 t2).1,
        { (evaluate { s0 with profile := P1 } cmd "SN1" cycles t1 t2).2 with
            profile := P2 }))) := by
  exact C10_burn_in_scope _ _ "PING" "SN1" _ (by decide) rfl rfl
    (fun c h => by simp [h]) (by simp) (by simp) (by simp) (by simp)

/-- C4: every event the runner emits satisfies
`retry_count = attempt - 1` and `1 <= attempt <= retries_allowed + 1`,
with `retries_allowed` equal to the emitting step's configured retries. -/
theorem C4_event_attempt_invariants (plan : List StepSpec) (sns : List String)
    (results : String → StepSpec → ℕ → CallResult) (ev : StepEvent)
    (h : ev ∈ run_batch_events plan sns results) :
    ev.retry_count + 1 = ev.attempt ∧
    1 ≤ ev.attempt ∧ ev.attempt ≤ ev.retries_allowed + 1 ∧
    ∃ step ∈ plan, ev.retries_allowed = step.retries ∧ ev.test_step = step.id := by
  simp only [run_batch_events, run_sn_events, List.mem_flatMap] at h
  obtain ⟨sn, hsn, step, hstep, hev⟩ := h
  obtain ⟨k, hk1, hk2, hk3⟩ :=
    run_step_from_mem sn step (results sn step) (step.retries + 1) 1 ev hev
  subst hk3
  refine ⟨?_, ?_, ?_, step, hstep, ?_, ?_⟩ <;>
    simp [attempt_event] <;> omega

/-- C4 witness: a one-step, one-SN batch whose only event is attempt 1. -/
theorem C4_event_attempt_invariants_witness :
    ((Mtap.attempt_event "SN1"
        { id := "s1", name := "step one", cmd := "PING", retries := 0, backoff_ms := 0,
          timeout_s := 2 } 1 { ok := true }) ∈
      Mtap.run_batch_events
        [{ id := "s1", name := "step one", cmd := "PING", retries := 0, backoff_ms := 0,
           timeout_s := 2 }] ["SN1"] (fun _ _ _ => { ok := true })) ∧
    ((Mtap.attempt_event "SN1"
        { id := "s1", name := "step one", cmd := "PING", retries := 0, backoff_ms := 0,
          timeout_s := 2 } 1 { ok := true }).retry_count + 1 =
      (Mtap.attempt_event "SN1"
        { id := "s1", name := "step one", cmd := "PING", retries := 0, backoff_ms := 0,
          timeout_s := 2 } 1 { ok := true }).attempt) := by
  have h := Mtap.C4_event_attempt_invariants
    [{ id := "s1", name := "step one", cmd := "PING", retries := 0, backoff_ms := 0,
       timeout_s := 2 }] ["SN1"] (fun _ _ _ => { ok := true })
    (Mtap.attempt_event "SN1"
      { id := "s1", name := "step one", cmd := "PING", retries := 0, backoff_ms := 0,
        timeout_s := 2 } 1 { ok := true }) (by decide)
  exact ⟨by decide, h.1⟩

/-- C6 counterexample: with a range limit `min = 0` on field `temp_c`
and a response whose data lacks that field, the code's limit check
passes, while the claim's formula (which requires an actually resolved
value `v >= min`) fails. -/
theorem C6_counterexample :
    (evaluate_limits (some { field := "temp_c", min := some 0 }) []).1 = true ∧
    ¬ spec_range_pass { field := "temp_c", min := some 0 } [] := by
  constructor
  · simp [evaluate_limits, lookupField]
  · rintro ⟨h1 | ⟨mn, v, hmn, hv, _⟩, -⟩ <;> simp_all [lookupField]

/-- C6 amended: for a range limit, an attempt with transport-level `ok`
passes the check iff every present bound is satisfied by the resolved
value, vacuously passing when the field is absent from the data; when
the check fails the runner's event has `passed = false` and
`error_code = LIMIT_FAIL`. -/
theorem C6_amended (lim : LimitsSpec) (data : List (String × ℚ)) (heq : lim.equals = none)
    (sn : String) (step : StepSpec) (k : ℕ) (res : CallResult) :
    ((evaluate_limits (some lim) data).1 = true ↔
      ((∀ mn v, lim.min = some mn → lookupField data lim.field = some v → mn ≤ v) ∧
       (∀ mx v, lim.max = some mx → lookupField data lim.field = some v → v ≤ mx))) ∧
    (res.ok = true → (evaluate_limits step.limits res.data).1 = false →
      (attempt_event sn step k res).passed = false ∧
      (attempt_event sn step k res).error_code = some "LIMIT_FAIL") := by
  constructor
  · simp only [evaluate_limits, heq]
    constructor
    · intro h
      constructor
      · intro mn v hmn hv
        rw [hmn, hv] at h
        rcases hmx : lim.max with _ | mx <;> rw [hmx] at h <;> simp at h
        · exact h
        · exact h.1
      · intro mx v hmx hv
        rw [hmx, hv] at h
        rcases hmn : lim.min with _ | mn <;> rw [hmn] at h <;> simp at h
        · exact h
        · exact h.2
    · rintro ⟨h1, h2⟩
      rcases hmn : lim.min with _ | mn <;> rcases hmx : lim.max with _ | mx <;>
        rcases hv : lookupField data lim.field with _ | v <;>
        simp_all
  · intro hok hfail
    rcases hlim : step.limits with _ | lim2
    · rw [hlim] at hfail
      simp [evaluate_limits] at hfail
    · have hec : (evaluate_limits (some lim2) res.data).2.1 = some "LIMIT_FAIL" := by
        rw [hlim] at hfail
        rcases he : lim2.equals with _ | e <;>
          simp only [evaluate_limits, he] at hfail ⊢
        · rw [if_neg]
          intro hab
          rw [hab] at hfail
          simp at hfail
        · rw [if_neg]
          intro hv
          simp [hv] at hfail
      rw [hlim] at hfail
      simp [attempt_event, hok, hfail, hec, hlim]

/-- C6 witness: the amended theorem at a concrete in-range measurement. -/
theorem C6_amended_witness :
    (let lim : LimitsSpec := { field := "temp_c", min := some 0, max := some 50 };
    let step : StepSpec :=
      { id := "s1", name := "n", cmd := "READ_TEMP", retries := 0, backoff_ms := 0
        timeout_s := 2 };
    let res : CallResult := { ok := true };
    lim.equals = none ∧
    (((evaluate_limits (some lim) [("temp_c", 25)]).1 = true ↔
      ((∀ mn v, lim.min = some mn →
          lookupField [("temp_c", 25)] lim.field = some v → mn ≤ v) ∧
       (∀ mx v, lim.max = some mx →
          lookupField [("temp_c", 25)] lim.field = some v → v ≤ mx))) ∧
    (res.ok = true → (evaluate_limits step.limits res.data).1 = false →
      (attempt_event "SN1" step 1 res).passed = false ∧
      (attempt_event "SN1" step 1 res).error_code = some "LIMIT_FAIL"))) := by
  exact ⟨rfl, C6_amended { field := "temp_c", min := some 0, max := some 50 } [("temp_c", 25)]
    rfl "SN1"
    { id := "s1", name := "n", cmd := "READ_TEMP", retries := 0, backoff_ms := 0
      timeout_s := 2 } 1 { ok := true }⟩

/-- C9: with a resolved requirements registry, an uncovered requirement
or an unknown referenced `req_id` makes the runner's construction fail
before anything else happens — in this embedding DUT calls and event
logging exist only inside the `.ok` branch's batch run — and when both
checks hold, construction succeeds carrying the coverage matrix to be
written to the run directory along with the batch's events. -/
theorem C9_traceability_gate (R : Registry) (raw_pairs : List (String × List String))
    (plan : List StepSpec) (sns : List String)
    (results : String → StepSpec → ℕ → CallResult) :
    (((∃ r ∈ R.map Prod.fst, r ∉ raw_pairs.flatMap Prod.snd) ∨
      (∃ rid ∈ raw_pairs.flatMap Prod.snd, rid ∉ R.map Prod.fst)) →
      ∃ e, runner_run (some R) raw_pairs plan sns results = .error e) ∧
    ((∀ r ∈ R.map Prod.fst, r ∈ raw_pairs.flatMap Prod.snd) →
     (∀ rid ∈ raw_pairs.flatMap Prod.snd, rid ∈ R.map Prod.fst) →
      runner_run (some R) raw_pairs plan sns results =
        .ok (some (generate_coverage_matrix R raw_pairs),
          run_batch_events plan sns results)) := by
  constructor
  · intro hviol
    rcases hv : validate_coverage R raw_pairs with e | u
    · exact ⟨e, by simp [runner_run, runner_init, hv]⟩
    · exfalso
      cases u
      have := (validate_coverage_ok_iff R raw_pairs).mp hv
      rcases hviol with ⟨r, hr, hnot⟩ | ⟨rid, hrid, hnot⟩
      · exact hnot (this.1 r hr)
      · exact hnot (this.2 rid hrid)
  · intro ha hb
    have hv : validate_coverage R raw_pairs = .ok () :=
      (validate_coverage_ok_iff R raw_pairs).mpr ⟨ha, hb⟩
    simp [runner_run, runner_init, hv]

/-- C7 counterexample: an SN with no temperature data is not excluded
from the `temp_bin` output: a single passing event without a `temp_c`
measurement yields a `temp_bin` row `UNKNOWN` counting that SN. -/
theorem C7_counterexample :
    tempsOf [{ sn := "A", test_step := "s", passed := true }] "A" = [] ∧
    strat_temp_bin [{ sn := "A", test_step := "s", passed := true }] =
      [{ key := "temp_bin", group := "UNKNOWN", units := 1, fty := 1 }] := by
  constructor
  · simp [tempsOf]
  · simp [strat_temp_bin, snsOf, temp_group, tempsOf, final_pass, stepsOf, final_event,
      List.dedup]

/-- C7 amended: in `temp_bin` stratification an SN with no passing
numeric `temp_c` measurement is grouped under `"UNKNOWN"` (not excluded);
every SN in a non-`UNKNOWN` group has at least one such measurement and
its group is the bin of the average of those values; each row counts
exactly the SNs mapping to its group. -/
theorem C7_amended (events : List AEvent) (sn : String) (hsn : sn ∈ snsOf events) :
    (tempsOf events sn = [] → temp_group events sn = "UNKNOWN" ∧
      ∃ row ∈ strat_temp_bin events, row.group = "UNKNOWN") ∧
    (tempsOf events sn ≠ [] →
      temp_group events sn =
        tempBin ((tempsOf events sn).sum / ((tempsOf events sn).length : ℚ))) ∧
    (∀ sn2 ∈ snsOf events, temp_group events sn2 ≠ "UNKNOWN" → tempsOf events sn2 ≠ []) ∧
    (∀ row ∈ strat_temp_bin events,
      row.units = ((snsOf events).filter (fun x => temp_group events x = row.group)).length) := by
  refine ⟨?_, ?_, ?_, ?_⟩
  · intro hempty
    have hg : temp_group events sn = "UNKNOWN" := by
      simp [temp_group, hempty]
    refine ⟨hg, ?_⟩
    have hmem : "UNKNOWN" ∈
        (((snsOf events).map (temp_group events)).dedup).mergeSort (fun a b => a ≤ b) := by
      rw [List.mem_mergeSort, List.mem_dedup]
      exact hg ▸ List.mem_map_of_mem (temp_group events) hsn
    exact ⟨_, List.mem_map_of_mem _ hmem, rfl⟩
  · intro hne
    rcases ht : tempsOf events sn with _ | ⟨x, xs⟩
    · exact absurd ht hne
    · simp [temp_group, ht]
  · intro sn2 _ hg hempty
    exact hg (by simp [temp_group, hempty])
  · intro row hrow
    simp only [strat_temp_bin, List.mem_map] at hrow
    obtain ⟨g, hg, hrow⟩ := hrow
    subst hrow
    rfl

/-- C7 witness: the amended theorem at the one-event log of an SN
without temperature data. -/
theorem C7_amended_witness :
    (let events0 : List AEvent := [{ sn := "A", test_step := "s", passed := true }];
    (tempsOf events0 "A" = [] → temp_group events0 "A" = "UNKNOWN" ∧
      ∃ row ∈ strat_temp_bin events0, row.group = "UNKNOWN") ∧
    (tempsOf events0 "A" ≠ [] →
      temp_group events0 "A" =
        tempBin ((tempsOf events0 "A").sum / ((tempsOf events0 "A").length : ℚ))) ∧
    (∀ sn2 ∈ snsOf events0, temp_group events0 sn2 ≠ "UNKNOWN" → tempsOf events0 sn2 ≠ []) ∧
    (∀ row ∈ strat_temp_bin events0,
      row.units =
        ((snsOf events0).filter (fun x => temp_group events0 x = row.group)).length)) := by
  exact C7_amended [{ sn := "A", test_step := "s", passed := true }] "A" (by decide)

/-- C3 amended: with the intermittent Markov chain enabled and the busy
gate not firing, one call to `evaluate` steps the chain once inside the
fail stage — `fail_add` observing that post-transition state — and, when
the fail branch does not fire, once more inside the timeout stage —
`timeout_add` observing the state after this second transition — so the
chain can transition twice per evaluation and the two additions can
observe different states. -/
theorem C3_amended (s : DutState) (cmd sn : String) (cyc : ℕ) (t1 t2 : ℚ)
    (henabled : (markov_cfg s.profile).enabled.getD false = true)
    (hbusy : (should_busy (evaluate_entry s cmd sn t1) cmd sn t2).1.should = false) :
    ((((should_fail ((should_busy (evaluate_entry s cmd sn t1) cmd sn t2).2) cmd sn
        cyc).2).ctx (sn, cmd)).markov_state =
      (markov_step ((should_busy (evaluate_entry s cmd sn t1) cmd sn t2).2) cmd sn).1) ∧
    ((markov_fail_add ((should_busy (evaluate_entry s cmd sn t1) cmd sn t2).2) cmd sn).1 =
      (if (markov_step ((should_busy (evaluate_entry s cmd sn t1) cmd sn t2).2) cmd sn).1 =
          MarkovState.BAD
        then (markov_cfg s.profile).fail_p_bad_state.getD 0 else 0)) ∧
    ((should_fail ((should_busy (evaluate_entry s cmd sn t1) cmd sn t2).2) cmd sn
        cyc).1.should = false →
      (evaluate s cmd sn cyc t1 t2).2 =
        (should_timeout ((should_fail ((should_busy (evaluate_entry s cmd sn t1) cmd sn
          t2).2) cmd sn cyc).2) cmd sn cyc).2 ∧
      (((evaluate s cmd sn cyc t1 t2).2.ctx (sn, cmd)).markov_state =
        (markov_step ((should_fail ((should_busy (evaluate_entry s cmd sn t1) cmd sn
          t2).2) cmd sn cyc).2) cmd sn).1) ∧
      ((markov_timeout_add ((should_fail ((should_busy (evaluate_entry s cmd sn t1) cmd sn
          t2).2) cmd sn cyc).2) cmd sn).1.1 =
        (if (markov_step ((should_fail ((should_busy (evaluate_entry s cmd sn t1) cmd sn
            t2).2) cmd sn cyc).2) cmd sn).1 = MarkovState.BAD
          then (markov_cfg s.profile).timeout_p_bad_state.getD 0 else 0))) ∧
    ((should_fail ((should_busy (evaluate_entry s cmd sn t1) cmd sn t2).2) cmd sn
        cyc).1.should = true →
      (evaluate s cmd sn cyc t1 t2).2 =
        (should_fail ((should_busy (evaluate_entry s cmd sn t1) cmd sn t2).2) cmd sn
          cyc).2) := by
  have hpB : ((should_busy (evaluate_entry s cmd sn t1) cmd sn t2).2).profile = s.profile :=
    (should_busy_state (evaluate_entry s cmd sn t1) cmd sn t2).2
  have heB : (markov_cfg ((should_busy (evaluate_entry s cmd sn t1) cmd sn
      t2).2).profile).enabled.getD false = true := by rw [hpB]; exact henabled
  have hF := should_fail_ctx ((should_busy (evaluate_entry s cmd sn t1) cmd sn t2).2)
    cmd sn cyc heB
  have heF : (markov_cfg ((should_fail ((should_busy (evaluate_entry s cmd sn t1) cmd sn
      t2).2) cmd sn cyc).2).profile).enabled.getD false = true := by
    rw [hF.2, hpB]; exact henabled
  refine ⟨?_, ?_, ?_, ?_⟩
  · rw [hF.1]
    exact markov_step_ctx_state _ cmd sn heB
  · have := (markov_fail_add_ctx ((should_busy (evaluate_entry s cmd sn t1) cmd sn t2).2)
      cmd sn heB).2.2
    rw [this, hpB]
  · intro hfail
    have hT := should_timeout_ctx ((should_fail ((should_busy (evaluate_entry s cmd sn
      t1) cmd sn t2).2) cmd sn cyc).2) cmd sn cyc heF
    have hev : (evaluate s cmd sn cyc t1 t2).2 =
        (should_timeout ((should_fail ((should_busy (evaluate_entry s cmd sn t1) cmd sn
          t2).2) cmd sn cyc).2) cmd sn cyc).2 := by
      simp only [evaluate, hbusy, hfail]
      split_ifs <;> simp_all
    refine ⟨hev, ?_, ?_⟩
    · rw [hev, hT.1]
      exact markov_step_ctx_state _ cmd sn heF
    · have := (markov_timeout_add_ctx ((should_fail ((should_busy (evaluate_entry s cmd
        sn t1) cmd sn t2).2) cmd sn cyc).2) cmd sn heF).2.2
      rw [this, hF.2, hpB]
  · intro hfail
    simp only [evaluate, hbusy, hfail]
    split_ifs <;> simp_all

/-- C3 counterexample: a chain with both transition probabilities 1 and
`fail_p_bad_state = 0.8`, `timeout_p_bad_state = 1`, under a draw stream
whose fail draw (0.9) misses: within the single `evaluate`, the fail
stage transitions `GOOD → BAD` and observes `fail_add = 0.8`, then the
timeout stage transitions `BAD → GOOD` and observes `timeout_add = 0`;
the evaluation returns `PASS` with final state `GOOD` — two transitions,
and the two additions observed different states. -/
theorem C3_counterexample :
    (let prof3 : FaultProfile :=
      { intermittent_markov := some
          { enabled := some true, p_good_to_bad := some 1, p_bad_to_good := some 1
            fail_p_bad_state := some (4/5), timeout_p_bad_state := some 1 } };
    let s0 : DutState := { stream := fun n => if n = 1 then 9/10 else 0, profile := prof3 };
    let sB : DutState :=
      (should_busy (evaluate_entry s0 "READ_TEMP" "SN1" 0) "READ_TEMP" "SN1" 0).2;
    (should_busy (evaluate_entry s0 "READ_TEMP" "SN1" 0) "READ_TEMP" "SN1" 0).1.should =
      false ∧
    ((should_fail sB "READ_TEMP" "SN1" 0).2.ctx ("SN1", "READ_TEMP")).markov_state =
      MarkovState.BAD ∧
    (should_fail sB "READ_TEMP" "SN1" 0).1.should = false ∧
    (markov_fail_add sB "READ_TEMP" "SN1").1 = 4/5 ∧
    (markov_timeout_add (should_fail sB "READ_TEMP" "SN1" 0).2 "READ_TEMP" "SN1").1.1 =
      0 ∧
    (evaluate s0 "READ_TEMP" "SN1" 0 0 0).1 = Action.PASS ∧
    ((evaluate s0 "READ_TEMP" "SN1" 0 0 0).2.ctx ("SN1", "READ_TEMP")).markov_state =
      MarkovState.GOOD) := by
  refine ⟨?_, ?_, ?_, ?_, ?_, ?_, ?_⟩ <;>
    simp [should_busy, should_fail, should_timeout, markov_fail_add, markov_timeout_add,
      markov_step, markov_cfg, evaluate, evaluate_entry, cfg_for, mergeBusy, mergeFail,
      mergeTimeout, burn_in_effect, mergeBurnIn, rand, uniform, reduceCtorEq] <;>
    (try norm_num) <;> (try decide)

/-- C3 witness: the amended theorem at the counterexample's profile and
stream. -/
theorem C3_amended_witness :
    (let prof3 : FaultProfile :=
      { intermittent_markov := some
          { enabled := some true, p_good_to_bad := some 1, p_bad_to_good := some 1
            fail_p_bad_state := some (4/5), timeout_p_bad_state := some 1 } };
    let s0 : DutState := { stream := fun n => if n = 1 then 9/10 else 0, profile := prof3 };
    let sB : DutState :=
      (should_busy (evaluate_entry s0 "READ_TEMP" "SN1" 0) "READ_TEMP" "SN1" 0).2;
    let sF : DutState := (should_fail sB "READ_TEMP" "SN1" 0).2;
    ((sF.ctx ("SN1", "READ_TEMP")).markov_state = (markov_step sB "READ_TEMP" "SN1").1) ∧
    ((markov_fail_add sB "READ_TEMP" "SN1").1 =
      (if (markov_step sB "READ_TEMP" "SN1").1 = MarkovState.BAD
        then (markov_cfg s0.profile).fail_p_bad_state.getD 0 else 0)) ∧
    ((should_fail sB "READ_TEMP" "SN1" 0).1.should = false →
      (evaluate s0 "READ_TEMP" "SN1" 0 0 0).2 =
        (should_timeout sF "READ_TEMP" "SN1" 0).2 ∧
      (((evaluate s0 "READ_TEMP" "SN1" 0 0 0).2.ctx ("SN1", "READ_TEMP")).markov_state =
        (markov_step sF "READ_TEMP" "SN1").1) ∧
      ((markov_timeout_add sF "READ_TEMP" "SN1").1.1 =
        (if (markov_step sF "READ_TEMP" "SN1").1 = MarkovState.BAD
          then (markov_cfg s0.profile).timeout_p_bad_state.getD 0 else 0))) ∧
    ((should_fail sB "READ_TEMP" "SN1" 0).1.should = true →
      (evaluate s0 "READ_TEMP" "SN1" 0 0 0).2 = sF)) := by
  exact C3_amended
    { stream := fun n => if n = 1 then 9/10 else 0
      profile :=
        { intermittent_markov := some
            { enabled := some true, p_good_to_bad := some 1, p_bad_to_good := some 1
              fail_p_bad_state := some (4/5), timeout_p_bad_state := some 1 } } }
    "READ_TEMP" "SN1" 0 0 0 (by decide)
    (by simp [should_busy, evaluate_entry, cfg_for, mergeBusy, rand])

end Mtap
